import Mathlib

/-!
Verification of the SpriteMatic quality-gated sprite-generation pipeline.

The definitions below are a shallow embedding of the TypeScript source
(`apps/backend/src/services/sprite.service.ts`, the quality service, the
request-creation path and the environment contract).  JavaScript numbers
are modelled as exact rationals, raw RGBA buffers as lists of byte
values, fallible code as `Except`, and JS `null`/`undefined` as
`Option`.  Line numbers in doc comments refer to the TypeScript sources.
-/

namespace SpriteMatic


/-! ## JavaScript numeric helpers -/

/-- The `clamp` helper of the quality service:
`Math.min(max, Math.max(min, value))`. -/
def clampQ (v lo hi : ℚ) : ℚ := min hi (max lo v)

/-- JS `Math.floor` on an exact rational. -/
def jsFloor (q : ℚ) : ℤ := ⌊q⌋

/-- JS `Math.round` (round half toward positive infinity), which agrees
with Mathlib `round` on rationals. -/
def jsRound (q : ℚ) : ℤ := round q

/-- JS `Number(value.toFixed(1))` modelled as rounding to the nearest
tenth.  The scorer only applies it to nonnegative values, where ties
round up exactly as in JS. -/
def roundTo1 (q : ℚ) : ℚ := (round (q * 10) : ℚ) / 10

/-! ## Decimal rendering of JS numbers (used in message strings) -/

/-- Decimal digit character. -/
def digitCh (d : ℕ) : Char := Char.ofNat (48 + d)

/-- Decimal rendering of a natural number, most significant digit
first. -/
def renderNat (n : ℕ) : List Char :=
  if n = 0 then ['0'] else ((Nat.digits 10 n).reverse.map digitCh)

/-- Decimal rendering of an integer. -/
def renderInt (n : ℤ) : List Char :=
  if n < 0 then '-' :: renderNat n.natAbs else renderNat n.natAbs

/-- String form of a natural number as JS renders integers. -/
def natStr (n : ℕ) : String := String.mk (renderNat n)

/-- JS `value.toFixed(1)` on an exact rational. -/
def toFixed1 (q : ℚ) : String :=
  let n : ℤ := round (q * 10)
  let sgn : List Char := if n < 0 then ['-'] else []
  String.mk (sgn ++ renderNat (n.natAbs / 10) ++ ['.'] ++ renderNat (n.natAbs % 10))

/-! ## Quality service data model (quality.service.ts) -/

/-- Per-frame opaque bounding box reported in a frame summary. -/
structure FrameBounds where
  minX : ℤ
  minY : ℤ
  maxX : ℤ
  maxY : ℤ
  width : ℤ
  height : ℤ
  area : ℤ
  deriving Repr, DecidableEq

/-- `FrameQualitySummary` of the quality service. -/
structure FrameQualitySummary where
  frameIndex : ℕ
  fillRatio : ℚ
  translucentRatio : ℚ
  centroidX : Option ℚ
  centroidY : Option ℚ
  clippedEdges : List String
  bounds : Option FrameBounds
  deriving Repr, DecidableEq

/-- `QualityThresholds` of the quality service. -/
structure QualityThresholds where
  minScore : ℚ
  minTransparentRatio : ℚ
  maxTranslucentRatio : ℚ
  maxOuterEdgeOpaqueRatio : ℚ
  maxBoundaryBleedRatio : ℚ
  minFrameFillRatio : ℚ
  maxFrameFillRatio : ℚ
  maxAnchorDriftPx : ℚ
  maxHorizontalDriftPx : ℚ
  maxScaleVarianceRatio : ℚ
  minMeanConsecutiveDelta : ℚ
  minDistinctPairRatio : ℚ
  minQuantizedColorCount : ℚ
  maxQuantizedColorCount : ℚ
  deriving Repr, DecidableEq

/-- `QualityMetrics` of the quality service. -/
structure QualityMetrics where
  analyzedFrameCount : ℚ
  expectedFrameCount : ℚ
  transparentPixelRatio : ℚ
  translucentPixelRatio : ℚ
  quantizedColorCount : ℚ
  outerEdgeOpaqueRatio : ℚ
  maxBoundaryBleedRatio : ℚ
  emptyFrameCount : ℚ
  overcrowdedFrameCount : ℚ
  clippedFrameCount : ℚ
  maxAnchorDriftPx : ℚ
  maxHorizontalDriftPx : ℚ
  maxVerticalDriftPx : ℚ
  scaleVarianceRatio : ℚ
  meanConsecutiveFrameDelta : ℚ
  minConsecutiveFrameDelta : ℚ
  maxConsecutiveFrameDelta : ℚ
  distinctPairRatio : ℚ
  deriving Repr, DecidableEq

/-- `QualityDiagnostics` of the quality service. -/
structure QualityDiagnostics where
  score : ℚ
  thresholds : QualityThresholds
  metrics : QualityMetrics
  frameSummaries : List FrameQualitySummary
  deriving Repr, DecidableEq

/-- `QualityResult` of the quality service. -/
structure QualityResult where
  ok : Bool
  reasons : List String
  width : ℤ
  height : ℤ
  diagnostics : QualityDiagnostics
  deriving Repr, DecidableEq

/-- `scoreFromPenalties` (quality.service.ts lines 383-470): the final
score starts at 100, subtracts independently capped per-category
penalties, floors at `thresholds.minScore` when no reasons were
recorded, and is clamped to [0,100] and rounded to one decimal.
Rational division by zero yields 0 in Lean where JS would produce an
infinity; every divisor below is either guarded by a `Math.max` in the
source or a fixed positive threshold in the real call. -/
def scoreFromPenalties (reasons : List String) (thresholds : QualityThresholds)
    (metrics : QualityMetrics) (hasDimensionMismatch hasTransparency : Bool) : ℚ :=
  let score : ℚ := 100
  let score := if hasDimensionMismatch then score - 28 else score
  let score := if !hasTransparency then score - 24 else score
  let score :=
    if metrics.transparentPixelRatio < thresholds.minTransparentRatio then
      score - clampQ ((thresholds.minTransparentRatio - metrics.transparentPixelRatio)
        / thresholds.minTransparentRatio * 20) 0 20
    else score
  let score :=
    if metrics.translucentPixelRatio > thresholds.maxTranslucentRatio then
      score - clampQ ((metrics.translucentPixelRatio - thresholds.maxTranslucentRatio)
        / max (1/1000) thresholds.maxTranslucentRatio * 18) 0 18
    else score
  let score := score - clampQ (metrics.outerEdgeOpaqueRatio * 90) 0 18
  let score :=
    if metrics.maxBoundaryBleedRatio > thresholds.maxBoundaryBleedRatio then
      score - clampQ ((metrics.maxBoundaryBleedRatio - thresholds.maxBoundaryBleedRatio)
        / max (1/100) (1 - thresholds.maxBoundaryBleedRatio) * 14) 0 14
    else score
  let score := score - min 30 (metrics.emptyFrameCount * 6)
  let score := score - min 20 (metrics.overcrowdedFrameCount * 4)
  let score := score - min 30 (metrics.clippedFrameCount * 5)
  let score :=
    if metrics.maxAnchorDriftPx > thresholds.maxAnchorDriftPx then
      score - clampQ ((metrics.maxAnchorDriftPx - thresholds.maxAnchorDriftPx)
        / max 1 thresholds.maxAnchorDriftPx * 16) 0 16
    else score
  let score :=
    if metrics.maxHorizontalDriftPx > thresholds.maxHorizontalDriftPx then
      score - clampQ ((metrics.maxHorizontalDriftPx - thresholds.maxHorizontalDriftPx)
        / max 1 thresholds.maxHorizontalDriftPx * 10) 0 10
    else score
  let score :=
    if metrics.scaleVarianceRatio > thresholds.maxScaleVarianceRatio then
      score - clampQ ((metrics.scaleVarianceRatio - thresholds.maxScaleVarianceRatio)
        / max (1/100) thresholds.maxScaleVarianceRatio * 12) 0 12
    else score
  let score :=
    if metrics.meanConsecutiveFrameDelta < thresholds.minMeanConsecutiveDelta then
      score - clampQ ((thresholds.minMeanConsecutiveDelta - metrics.meanConsecutiveFrameDelta)
        / max (1/1000) thresholds.minMeanConsecutiveDelta * 14) 0 14
    else score
  let score :=
    if metrics.distinctPairRatio < thresholds.minDistinctPairRatio then
      score - clampQ ((thresholds.minDistinctPairRatio - metrics.distinctPairRatio)
        / max (1/1000) thresholds.minDistinctPairRatio * 12) 0 12
    else score
  let score :=
    if metrics.quantizedColorCount < thresholds.minQuantizedColorCount then
      score - clampQ ((thresholds.minQuantizedColorCount - metrics.quantizedColorCount)
        / max 1 thresholds.minQuantizedColorCount * 8) 0 8
    else score
  let score :=
    if metrics.quantizedColorCount > thresholds.maxQuantizedColorCount then
      score - clampQ ((metrics.quantizedColorCount - thresholds.maxQuantizedColorCount)
        / max 1 thresholds.maxQuantizedColorCount * 8) 0 8
    else score
  let score := if reasons.length = 0 then max score thresholds.minScore else score
  roundTo1 (clampQ score 0 100)

/-- The reason string pushed when the final score falls below the
quality floor (quality.service.ts line 853). -/
def qualityBelowMinimumReason (score minScore : ℚ) : String :=
  "Quality score " ++ toFixed1 score ++ " is below minimum " ++ toFixed1 minScore

/-- The deciding tail of `validateSpriteQuality` (quality.service.ts
lines 844-869): given the reasons and metrics accumulated by the pixel
scan, compute the score via `scoreFromPenalties`, append the below
minimum reason when the score is short of `minScore`, and return `ok`
iff there are zero reasons and the score reaches `minScore`.  The pixel
scan that produces the inputs is left universally quantified in the
theorems, which therefore cover every buffer input. -/
def validateSpriteQualityOutcome (reasons0 : List String)
    (thresholds : QualityThresholds) (metrics : QualityMetrics)
    (frameSummaries : List FrameQualitySummary)
    (hasDimensionMismatch hasTransparency : Bool) (minScore : ℚ)
    (width height : ℤ) : QualityResult :=
  let score := scoreFromPenalties reasons0 thresholds metrics hasDimensionMismatch hasTransparency
  let reasons :=
    if score < minScore then reasons0 ++ [qualityBelowMinimumReason score minScore]
    else reasons0
  { ok := decide (reasons.length = 0) && decide (minScore ≤ score)
    reasons := reasons
    width := width
    height := height
    diagnostics :=
      { score := score
        thresholds := thresholds
        metrics := metrics
        frameSummaries := frameSummaries } }

/-! ## JavaScript string helpers -/

/-- Whitespace characters recognised by the JS `\s` class and `trim`
(restricted to the ASCII range, which is all the service produces). -/
def jsIsSpace (c : Char) : Bool :=
  c == ' ' || c == '\t' || c == '\n' || c == '\r' ||
    c == Char.ofNat 11 || c == Char.ofNat 12

/-- JS `String.prototype.trim` on a character list. -/
def jsTrimChars (l : List Char) : List Char :=
  ((l.dropWhile (fun c => jsIsSpace c)).reverse.dropWhile (fun c => jsIsSpace c)).reverse

/-- JS `String.prototype.trim`. -/
def jsTrim (s : String) : String := String.mk (jsTrimChars s.data)

/-- JS `replace(/\s+/g, " ")`: collapse every maximal whitespace run to
a single space. -/
def collapseWsChars (l : List Char) : List Char :=
  match l with
  | [] => []
  | c :: rest =>
    if jsIsSpace c then ' ' :: collapseWsChars (rest.dropWhile (fun d => jsIsSpace d))
    else c :: collapseWsChars rest
termination_by l.length
decreasing_by
  · simp only [List.length_cons]
    exact Nat.lt_succ_of_le (List.dropWhile_suffix _).sublist.length_le
  · simp

/-- `value.trim().replace(/\s+/g, " ")` — the normalisation used by
`normalizePrompt` and `estimateTokens` (sprite.service.ts lines 78 and
229-233). -/
def normalizeWs (s : String) : String := String.mk (collapseWsChars (jsTrimChars s.data))

/-- JS `String.prototype.toLowerCase` (ASCII). -/
def jsToLower (s : String) : String := String.mk (s.data.map Char.toLower)

/-- JS `String.prototype.slice(0, n)`. -/
def jsTake (n : ℕ) (s : String) : String := String.mk (s.data.take n)

/-! ## sprite.service.ts: token accounting and model profiles -/

/-- `TokenUsage` of sprite.service.ts. -/
structure TokenUsage where
  inputTokens : ℕ
  outputTokens : ℕ
  totalTokens : ℕ
  deriving Repr, DecidableEq, Inhabited

/-- `GenerationTokenEstimate` of sprite.service.ts. -/
structure GenerationTokenEstimate extends TokenUsage where
  estimatedOutputTokens : ℕ
  deriving Repr, DecidableEq

/-- `ModelProfile` of sprite.service.ts. -/
structure ModelProfile where
  inputPerMTokens : ℚ
  outputPerMTokens : ℚ
  maxAttempts : ℕ
  compactPrompt : Bool
  correctionIssueLimit : Option ℕ
  deriving Repr, DecidableEq

/-- The `modelRates` record (sprite.service.ts lines 134-180) as a
lookup. -/
def modelRatesFind (model : String) : Option ModelProfile :=
  if model = "gpt-4.1" then
    some { inputPerMTokens := 2, outputPerMTokens := 8, maxAttempts := 4,
           compactPrompt := false, correctionIssueLimit := some 2 }
  else if model = "gpt-4.1-mini" then
    some { inputPerMTokens := 2/5, outputPerMTokens := 8/5, maxAttempts := 3,
           compactPrompt := true, correctionIssueLimit := some 2 }
  else if model = "gpt-4.1-nano" then
    some { inputPerMTokens := 1/10, outputPerMTokens := 2/5, maxAttempts := 4,
           compactPrompt := true, correctionIssueLimit := some 3 }
  else if model = "gpt-4o" then
    some { inputPerMTokens := 5/2, outputPerMTokens := 10, maxAttempts := 3,
           compactPrompt := false, correctionIssueLimit := some 2 }
  else if model = "gpt-4o-mini" then
    some { inputPerMTokens := 3/20, outputPerMTokens := 3/5, maxAttempts := 2,
           compactPrompt := true, correctionIssueLimit := some 2 }
  else if model = "gpt-image-1" then
    some { inputPerMTokens := 2/5, outputPerMTokens := 0, maxAttempts := 4,
           compactPrompt := false, correctionIssueLimit := some 4 }
  else none

/-- `getModelProfile` (sprite.service.ts lines 182-192). -/
def getModelProfile (model : String) : ModelProfile :=
  (modelRatesFind model).getD
    { inputPerMTokens := 2/5, outputPerMTokens := 0, maxAttempts := 3,
      compactPrompt := false, correctionIssueLimit := some 2 }

/-- `estimateCostUsd` (sprite.service.ts lines 194-208).  The source
returns `null` when no profile is found, but `getModelProfile` is total,
so the `none` branch is unreachable; the `Option` is kept to mirror the
source type. -/
def estimateCostUsd (model : String) (inputTokens outputTokens : ℕ) : Option ℚ :=
  let rates := getModelProfile model
  some ((inputTokens : ℚ) / 1000000 * rates.inputPerMTokens
    + (outputTokens : ℚ) / 1000000 * rates.outputPerMTokens)

/-- `estimateTokens` (sprite.service.ts lines 229-233):
`max(1, Math.ceil(normalized.length / 4))`, or 0 for an empty
normalised prompt. -/
def estimateTokens (text : String) : ℕ :=
  let normalized := normalizeWs text
  if normalized = "" then 0 else max 1 ((normalized.length + 3) / 4)

/-- `estimateOutputTokens` (sprite.service.ts lines 235-238):
`min(max(round(sheetPixels / 20), 512), 12000)`. -/
def estimateOutputTokens (spriteSize columns rows : ℕ) : ℕ :=
  let sheetPixels := spriteSize * spriteSize * columns * rows
  min (max (jsRound ((sheetPixels : ℚ) / 20)).toNat 512) 12000

/-- Insertion-order deduplication, as `Array.from(new Set(xs))`. -/
def dedupeKeepFirst (l : List String) : List String :=
  l.foldl (fun acc w => if acc.contains w then acc else acc ++ [w]) []

/-- `buildWarningSignature` (sprite.service.ts lines 240-249):
lower-cased, trimmed, deduplicated, sorted and joined with a pipe. -/
def buildWarningSignature (warnings : List String) : String :=
  let cleaned := (warnings.map (fun w => jsToLower (jsTrim w))).filter (fun w => w.length > 0)
  String.intercalate "|" ((dedupeKeepFirst cleaned).mergeSort (fun a b => a ≤ b))

/-- `buildAttemptCostEstimate` (sprite.service.ts lines 251-266). -/
def buildAttemptCostEstimate (model : String) (prompt : String)
    (outputTokensEstimate : ℕ) : ℚ :=
  (estimateCostUsd model (estimateTokens prompt) outputTokensEstimate).getD 0

/-- `buildTokenUsage` (sprite.service.ts lines 268-273). -/
def buildTokenUsage (inputTokens outputTokens estimatedOutputTokens : ℕ) :
    GenerationTokenEstimate :=
  { inputTokens := inputTokens, outputTokens := outputTokens,
    totalTokens := inputTokens + outputTokens,
    estimatedOutputTokens := estimatedOutputTokens }

/-- `dedupeWarnings` (sprite.service.ts lines 1093-1100). -/
def dedupeWarnings (warnings : List String) : List String :=
  dedupeKeepFirst ((warnings.map jsTrim).filter (fun w => w.length > 0))

/-! ## sprite.service.ts: settings verification result shape -/

/-- Expected-side fields of a settings verification. -/
structure SettingsExpected where
  frameWidth : ℕ
  frameHeight : ℕ
  frameCount : ℕ
  columns : ℕ
  rows : ℕ
  sheetWidth : ℕ
  sheetHeight : ℕ
  deriving Repr, DecidableEq

/-- Actual-side fields of a settings verification. -/
structure SettingsActual where
  frameWidth : ℕ
  frameHeight : ℕ
  frameSlots : ℕ
  sheetWidth : ℕ
  sheetHeight : ℕ
  hasTransparency : Bool
  nonEmptyFrameCount : ℕ
  unusedSlotsWithContent : ℕ
  deriving Repr, DecidableEq

/-- The `checks` field of `SettingsVerificationResult`. -/
structure SettingsChecks where
  expected : SettingsExpected
  actual : SettingsActual
  deriving Repr, DecidableEq

/-- `SettingsVerificationResult` of the quality service. -/
structure SettingsVerificationResult where
  passed : Bool
  summary : String
  failures : List String
  checks : SettingsChecks
  deriving Repr, DecidableEq

/-! ## sprite.service.ts: attempt candidates and ranking -/

/-- `AttemptCandidate` (sprite.service.ts lines 1081-1091). -/
structure AttemptCandidate where
  attempt : ℕ
  buffer : List ℕ
  qualityWarnings : List String
  qualityDiagnostics : QualityDiagnostics
  settingsVerification : SettingsVerificationResult
  tokenUsage : TokenUsage
  score : ℚ
  warningSignature : String
  qualityScore : ℚ
  deriving Repr, DecidableEq

/-- `candidateRank` (sprite.service.ts lines 1102-1106). -/
def candidateRank (candidate : AttemptCandidate) : ℚ :=
  let settingsBonus : ℚ := if candidate.settingsVerification.passed then 1000 else 0
  let warningPenalty : ℚ := (candidate.qualityWarnings.length : ℚ) * (1/2)
  settingsBonus + candidate.score - warningPenalty

/-- The ranked attempt score computed at sprite.service.ts lines
1459-1460: the quality score with a penalty of 18 when settings
verification did not pass. -/
def attemptRankedScore (qualityScore : ℚ) (settingsPassed : Bool) : ℚ :=
  qualityScore + (if settingsPassed then 0 else -18)

/-- The candidate record built by the attempt loop (sprite.service.ts
lines 1462-1472). -/
def mkAttemptCandidate (attempt : ℕ) (buffer : List ℕ) (attemptWarnings : List String)
    (diagnostics : QualityDiagnostics) (verification : SettingsVerificationResult)
    (usage : TokenUsage) : AttemptCandidate :=
  { attempt := attempt
    buffer := buffer
    qualityWarnings := attemptWarnings
    qualityDiagnostics := diagnostics
    settingsVerification := verification
    tokenUsage := usage
    score := attemptRankedScore diagnostics.score verification.passed
    warningSignature := buildWarningSignature attemptWarnings
    qualityScore := diagnostics.score }

/-- The best-candidate update of sprite.service.ts lines 1474-1476: a
candidate replaces the best-so-far only when its rank strictly exceeds
the current best rank. -/
def updateBestCandidate (best : Option AttemptCandidate) (candidate : AttemptCandidate) :
    Option AttemptCandidate :=
  match best with
  | none => some candidate
  | some b => if candidateRank candidate > candidateRank b then some candidate else some b

/-! ## Raw RGBA buffers

A decoded image is a list of byte values, four per pixel, in row-major
order.  JS `Buffer` reads outside the range yield `undefined` (modelled
as 0, never hit by the guarded code paths) and writes outside the range
are ignored. -/

/-- Read a byte at an integer offset. -/
def readB (data : List ℕ) (i : ℤ) : ℕ :=
  if 0 ≤ i then data.getD i.toNat 0 else 0

/-- Write a byte at an integer offset. -/
def writeB (data : List ℕ) (i : ℤ) (v : ℕ) : List ℕ :=
  if 0 ≤ i then data.set i.toNat v else data

/-- `toByte` (sprite.service.ts line 679): `Math.min(255, Math.max(0, value))`. -/
def toByte (value : ℤ) : ℕ := (min 255 (max 0 value)).toNat

/-! ## Frame occupancy scan (sprite.service.ts lines 596-669) -/

/-- `FrameOccupancy` of sprite.service.ts. -/
structure FrameOccupancy where
  frameIndex : ℕ
  originX : ℤ
  originY : ℤ
  pixelCount : ℕ
  minX : ℤ
  minY : ℤ
  maxX : ℤ
  maxY : ℤ
  deriving Repr, DecidableEq

/-- Accumulator of the per-frame opaque-pixel scan. -/
structure BoxAcc where
  pixelCount : ℕ
  minX : ℤ
  minY : ℤ
  maxX : ℤ
  maxY : ℤ
  deriving Repr, DecidableEq

/-- Inner x-loop of the occupancy scan (sprite.service.ts lines
639-653): alpha above 16 counts as opaque and extends the box. -/
def scanFrameRow (data : List ℕ) (width : ℤ) (spriteSize : ℕ)
    (originX originY : ℤ) (localY : ℕ) (acc0 : BoxAcc) : BoxAcc :=
  (List.range spriteSize).foldl (fun acc localX =>
    let x := originX + localX
    let y := originY + localY
    let offset := (y * width + x) * 4
    let alpha := readB data (offset + 3)
    if alpha ≤ 16 then acc
    else
      { pixelCount := acc.pixelCount + 1
        minX := min acc.minX localX
        minY := min acc.minY localY
        maxX := max acc.maxX localX
        maxY := max acc.maxY localY }) acc0

/-- Outer y-loop of the occupancy scan. -/
def scanFramePixels (data : List ℕ) (width : ℤ) (spriteSize : ℕ)
    (originX originY : ℤ) : BoxAcc :=
  (List.range spriteSize).foldl
    (fun acc localY => scanFrameRow data width spriteSize originX originY localY acc)
    { pixelCount := 0, minX := (spriteSize : ℤ), minY := (spriteSize : ℤ),
      maxX := -1, maxY := -1 }

/-- `findFrameOccupancy` (sprite.service.ts lines 610-669).  Callers
always pass positive `columns`/`rows`. -/
def findFrameOccupancy (data : List ℕ) (width : ℤ)
    (spriteSize columns frameCount rows : ℕ) : List FrameOccupancy :=
  let totalSlots := columns * rows
  let activeFrames := max 1 (min frameCount totalSlots)
  (List.range activeFrames).map (fun frameIndex =>
    let originX : ℤ := ((frameIndex % columns) * spriteSize : ℕ)
    let originY : ℤ := ((frameIndex / columns) * spriteSize : ℕ)
    let acc := scanFramePixels data width spriteSize originX originY
    { frameIndex := frameIndex
      originX := originX
      originY := originY
      pixelCount := acc.pixelCount
      minX := max 0 acc.minX
      minY := max 0 acc.minY
      maxX := max 0 acc.maxX
      maxY := max 0 acc.maxY })

/-! ## Frame repair (sprite.service.ts lines 671-808) -/

/-- `Math.abs(candidate.frameIndex - targetFrame)`, the index distance
used by donor selection (sprite.service.ts lines 673-674). -/
def donorDist (targetFrame : ℕ) (f : FrameOccupancy) : ℕ :=
  ((f.frameIndex : ℤ) - targetFrame).natAbs

/-- `selectNearestDonorFrame` (sprite.service.ts lines 671-677): a
`reduce` seeded with the first candidate that replaces the best only on
a strictly smaller index distance.  `none` models the `undefined` the
source produces for an empty candidate list. -/
def selectNearestDonorFrame (targetFrame : ℕ) (candidates : List FrameOccupancy) :
    Option FrameOccupancy :=
  match candidates with
  | [] => none
  | c0 :: _ =>
    some (candidates.foldl (fun best candidate =>
      if donorDist targetFrame candidate < donorDist targetFrame best
      then candidate else best) c0)

/-- The donor-region inset (sprite.service.ts lines 727-728):
`min(1, max(0, floor(extent * 0.08)))`. -/
def donorInset (extent : ℤ) : ℤ := min 1 (max 0 ⌊(extent : ℚ) * (2/25)⌋)

/-- The cropped donor region of one repair (sprite.service.ts lines
727-734). -/
structure DonorRegion where
  minX : ℤ
  minY : ℤ
  maxX : ℤ
  maxY : ℤ
  width : ℤ
  height : ℤ
  deriving Repr, DecidableEq

/-- Crop the donor bounding box by the per-side inset. -/
def donorRegionOf (donor : FrameOccupancy) : DonorRegion :=
  let insetX := donorInset (donor.maxX - donor.minX + 1)
  let insetY := donorInset (donor.maxY - donor.minY + 1)
  let donorMinX := donor.minX + insetX
  let donorMinY := donor.minY + insetY
  let donorMaxX := max donor.minX (donor.maxX - insetX)
  let donorMaxY := max donor.minY (donor.maxY - insetY)
  { minX := donorMinX, minY := donorMinY, maxX := donorMaxX, maxY := donorMaxY,
    width := donorMaxX - donorMinX + 1, height := donorMaxY - donorMinY + 1 }

/-- One destination pixel of the repair copy loop (sprite.service.ts
lines 757-779): bounds-checked source read, transparent sources are
skipped, destinations outside the target frame cell are skipped, and a
small colour shift is applied on write. -/
def repairWritePixel (data : List ℕ) (width height : ℤ) (spriteSize : ℕ)
    (emptyFrame donor : FrameOccupancy) (region : DonorRegion)
    (destStartX destStartY colorShift : ℤ)
    (acc : List ℕ × ℕ) (localY localX : ℕ) : List ℕ × ℕ :=
  let sourceX := donor.originX + region.minX + localX
  let sourceY := donor.originY + region.minY + localY
  if sourceX < 0 ∨ width ≤ sourceX ∨ sourceY < 0 ∨ height ≤ sourceY then acc
  else
    let sourceOffset := (sourceY * width + sourceX) * 4
    let sourceAlpha := readB data (sourceOffset + 3)
    if sourceAlpha ≤ 16 then acc
    else
      let destinationX := destStartX + localX
      let destinationY := destStartY + localY
      if destinationX < emptyFrame.originX ∨ destinationY < emptyFrame.originY then acc
      else if emptyFrame.originX + spriteSize ≤ destinationX ∨
          emptyFrame.originY + spriteSize ≤ destinationY then acc
      else
        let destinationOffset := (destinationY * width + destinationX) * 4
        let out := writeB acc.1 destinationOffset (toByte (readB data sourceOffset + colorShift))
        let out := writeB out (destinationOffset + 1)
          (toByte (readB data (sourceOffset + 1) + colorShift))
        let out := writeB out (destinationOffset + 2)
          (toByte (readB data (sourceOffset + 2) + colorShift))
        let out := writeB out (destinationOffset + 3) sourceAlpha
        (out, acc.2 + 1)

/-- The nested copy loops of one frame repair (sprite.service.ts lines
756-780), returning the updated buffer and the copied-pixel count. -/
def repairCopyLoops (data : List ℕ) (width height : ℤ) (spriteSize : ℕ)
    (emptyFrame donor : FrameOccupancy) (region : DonorRegion)
    (destStartX destStartY colorShift : ℤ) (out0 : List ℕ) : List ℕ × ℕ :=
  (List.range region.height.toNat).foldl (fun acc localY =>
    (List.range region.width.toNat).foldl (fun acc2 localX =>
      repairWritePixel data width height spriteSize emptyFrame donor region
        destStartX destStartY colorShift acc2 localY localX) acc)
    (out0, 0)

/-- One iteration of the repair loop over near-empty frames
(sprite.service.ts lines 721-785). -/
def repairFrame (data : List ℕ) (width height : ℤ) (spriteSize : ℕ)
    (nonEmptyFrames : List FrameOccupancy)
    (acc : List ℕ × List ℕ) (emptyFrame : FrameOccupancy) : List ℕ × List ℕ :=
  match selectNearestDonorFrame emptyFrame.frameIndex nonEmptyFrames with
  | none => acc
  | some donor =>
    if donor.pixelCount = 0 then acc
    else
      let region := donorRegionOf donor
      if region.width ≤ 0 ∨ region.height ≤ 0 then acc
      else
        let jitterX : ℤ := (emptyFrame.frameIndex % 3 : ℕ) - 1
        let jitterY : ℤ := (emptyFrame.frameIndex / 3 % 3 : ℕ) - 1
        let destCenterX : ℤ := (spriteSize / 2 : ℕ) + jitterX
        let destCenterY : ℤ := (spriteSize / 2 : ℕ) + jitterY
        let destStartX := max emptyFrame.originX
          (min (emptyFrame.originX + spriteSize - region.width)
            (emptyFrame.originX + destCenterX - region.width / 2))
        let destStartY := max emptyFrame.originY
          (min (emptyFrame.originY + spriteSize - region.height)
            (emptyFrame.originY + destCenterY - region.height / 2))
        let colorShift : ℤ := ((emptyFrame.frameIndex + donor.frameIndex) % 3 : ℕ) - 1
        let copyResult := repairCopyLoops data width height spriteSize emptyFrame donor
          region destStartX destStartY colorShift acc.1
        if 0 < copyResult.2 then (copyResult.1, acc.2 ++ [emptyFrame.frameIndex])
        else (copyResult.1, acc.2)

/-- Result record of `repairNearEmptyFrames`. -/
structure RepairResult where
  buffer : List ℕ
  repairedSlots : ℕ
  repairedFrameIndices : List ℕ
  deriving Repr, DecidableEq

/-- The near-empty threshold `max(1, floor(spriteSize² × 0.015))`
(sprite.service.ts lines 607 and 697). -/
def targetMinFillPixels (spriteSize : ℕ) : ℕ := max 1 (spriteSize * spriteSize * 3 / 200)

/-- `repairNearEmptyFrames` (sprite.service.ts lines 681-808) at the
raw-buffer level (the sharp decode/encode wrappers are identities on the
raw pixels). -/
def repairNearEmptyFrames (data : List ℕ) (width height : ℤ)
    (spriteSize columns rows frameCount : ℕ) : RepairResult :=
  let frameSummaries := findFrameOccupancy data width spriteSize columns frameCount rows
  let nonEmptyFrames := frameSummaries.filter
    (fun f => targetMinFillPixels spriteSize ≤ f.pixelCount)
  let nearEmptyFrames := frameSummaries.filter
    (fun f => f.pixelCount < targetMinFillPixels spriteSize)
  if nearEmptyFrames.isEmpty || nonEmptyFrames.isEmpty then
    { buffer := data, repairedSlots := 0, repairedFrameIndices := [] }
  else
    let folded := nearEmptyFrames.foldl
      (repairFrame data width height spriteSize nonEmptyFrames) (data, [])
    if folded.2.isEmpty then
      { buffer := data, repairedSlots := 0, repairedFrameIndices := [] }
    else
      { buffer := folded.1, repairedSlots := folded.2.length,
        repairedFrameIndices := folded.2 }

/-! ## C9: donor selection and crop inset -/

/-- The per-side crop the spec claims: `floor(0.08 × boxDimension)`
(spec-text definition, kept only for comparison with the source
`donorInset`). -/
def specClaimedInset (extent : ℤ) : ℤ := ⌊(extent : ℚ) * (2/25)⌋

/-- The step function of the donor-selection `reduce`. -/
def donorStep (t : ℕ) (best candidate : FrameOccupancy) : FrameOccupancy :=
  if donorDist t candidate < donorDist t best then candidate else best
/-- A 25×25 donor bounding box at the frame origin. -/
def donorBox25 : FrameOccupancy :=
  { frameIndex := 0, originX := 0, originY := 0, pixelCount := 625,
    minX := 0, minY := 0, maxX := 24, maxY := 24 }

/-- Donor candidate fixture at frame index 2. -/
def occFrame2 : FrameOccupancy :=
  { frameIndex := 2, originX := 0, originY := 0, pixelCount := 40,
    minX := 0, minY := 0, maxX := 9, maxY := 9 }

/-- Donor candidate fixture at frame index 5. -/
def occFrame5 : FrameOccupancy :=
  { frameIndex := 5, originX := 0, originY := 0, pixelCount := 40,
    minX := 0, minY := 0, maxX := 9, maxY := 9 }


/-! ## Concrete fixtures used in counterexamples and witnesses -/

/-- A concrete all-zero thresholds record for concrete evaluations. -/
def zeroThresholds : QualityThresholds := ⟨0, 0, 0, 0, 0, 0, 0, 0, 0, 0, 0, 0, 0, 0⟩

/-- A concrete all-zero metrics record for concrete evaluations. -/
def zeroMetrics : QualityMetrics := ⟨0, 0, 0, 0, 0, 0, 0, 0, 0, 0, 0, 0, 0, 0, 0, 0, 0, 0⟩

/-- A concrete empty checks record for concrete evaluations. -/
def emptyChecks : SettingsChecks := ⟨⟨0, 0, 0, 0, 0, 0, 0⟩, ⟨0, 0, 0, 0, 0, false, 0, 0⟩⟩

/-- A concrete failed settings verification with one failure string. -/
def cexFailingVerification : SettingsVerificationResult :=
  { passed := false
    summary := "Image does not meet requested settings."
    failures := ["only 3 non-empty frames detected for requested 4 frames"]
    checks := emptyChecks }

/-- Concrete diagnostics with quality score 50. -/
def cexFailingDiagnostics : QualityDiagnostics :=
  { score := 50, thresholds := zeroThresholds, metrics := zeroMetrics, frameSummaries := [] }

/-- A loop-built candidate whose settings verification failed: attempt
1, quality score 50, one warning. -/
def cexFailingCandidate : AttemptCandidate :=
  mkAttemptCandidate 1 [] ["only 3 non-empty frames detected for requested 4 frames"]
    cexFailingDiagnostics cexFailingVerification ⟨0, 0, 0⟩

/-- A concrete passed settings verification. -/
def fixturePassedVerification : SettingsVerificationResult :=
  { passed := true
    summary := "Image meets or exceeds requested settings."
    failures := []
    checks := emptyChecks }

/-- A loop-built passing candidate with quality score 90. -/
def fixtureCandidate90 : AttemptCandidate :=
  mkAttemptCandidate 1 [] []
    { score := 90, thresholds := zeroThresholds, metrics := zeroMetrics, frameSummaries := [] }
    fixturePassedVerification ⟨0, 0, 0⟩

/-- A loop-built passing candidate with quality score 80. -/
def fixtureCandidate80 : AttemptCandidate :=
  mkAttemptCandidate 2 [] []
    { score := 80, thresholds := zeroThresholds, metrics := zeroMetrics, frameSummaries := [] }
    fixturePassedVerification ⟨0, 0, 0⟩

/-! ## C1: candidate ranking -/

/-- The rank formula exactly as the spec words it:
`(settingsPassed ? 1000 : 0) + qualityScore − 0.5 × warningCount`.
Spec-text definition, kept only for comparison with the source
`candidateRank`. -/
def specClaimedRank (candidate : AttemptCandidate) : ℚ :=
  (if candidate.settingsVerification.passed then 1000 else 0) + candidate.qualityScore
    - (candidate.qualityWarnings.length : ℚ) * (1/2)

/-! ## C10: frame-effect of the repair pass -/

/-- Membership of a pixel in the grid cell of a frame. -/
def inFrameCell (f : FrameOccupancy) (s : ℕ) (x y : ℤ) : Prop :=
  f.originX ≤ x ∧ x < f.originX + s ∧ f.originY ≤ y ∧ y < f.originY + s

instance (f : FrameOccupancy) (s : ℕ) (x y : ℤ) : Decidable (inFrameCell f s x y) := by
  unfold inFrameCell
  infer_instance

/-- Byte offsets lying in the cell of some near-empty frame. -/
def offsetInCells (frames : List FrameOccupancy) (s : ℕ) (width : ℤ) (i : ℤ) : Prop :=
  ∃ f ∈ frames, ∃ x y : ℤ, ∃ c : ℕ,
    inFrameCell f s x y ∧ c < 4 ∧ i = (y * width + x) * 4 + c
/-- Concrete 2×1-grid fixture: one opaque pixel in frame 0, frame 1
empty, so frame 1 is repaired from frame 0. -/
def repairFixtureData : List ℕ := [200, 200, 200, 255] ++ List.replicate 28 0


/-! ## Fingerprint and request creation (sprite.service.ts lines 92-124
and 964-1079)

SHA-256 itself is modelled as a parameter `hash` over the exact JSON
payload the source feeds it; the distinctness statements assume the
hash is injective on the payloads involved (collision resistance). -/

/-- Lowercase hexadecimal digit. -/
def hexDigit (d : ℕ) : Char := if d < 10 then digitCh d else Char.ofNat (87 + d)

/-- One character of `JSON.stringify` string escaping. -/
def jsonEscapeChar (c : Char) : List Char :=
  if c = '"' then ['\\', '"']
  else if c = '\\' then ['\\', '\\']
  else if c = Char.ofNat 8 then ['\\', 'b']
  else if c = Char.ofNat 9 then ['\\', 't']
  else if c = Char.ofNat 10 then ['\\', 'n']
  else if c = Char.ofNat 12 then ['\\', 'f']
  else if c = Char.ofNat 13 then ['\\', 'r']
  else if c.toNat < 32 then
    ['\\', 'u', '0', '0', hexDigit (c.toNat / 16), hexDigit (c.toNat % 16)]
  else [c]

/-- A JSON string value with quotes. -/
def quoteJson (s : String) : List Char :=
  '"' :: (List.flatten (s.data.map jsonEscapeChar)) ++ ['"']

/-- The semantic request fields entering the fingerprint
(sprite.service.ts lines 102-113). -/
structure FingerprintArgs where
  userId : String
  prompt : String
  spriteSize : ℕ
  frameCount : ℕ
  projection : String
  animationType : String
  styleIntensity : ℕ
  columns : ℕ
  rows : ℕ
  seed : ℕ
  modelVersion : String
  deriving Repr, DecidableEq

/-- `JSON.stringify({...args})` over the fingerprint fields in object
literal order (sprite.service.ts lines 114-121); the braces are the
characters with codes 123 and 125. -/
def fingerprintPayloadChars (a : FingerprintArgs) : List Char :=
  [Char.ofNat 123]
    ++ "\"userId\":".data ++ quoteJson a.userId
    ++ ",\"prompt\":".data ++ quoteJson a.prompt
    ++ ",\"spriteSize\":".data ++ renderNat a.spriteSize
    ++ ",\"frameCount\":".data ++ renderNat a.frameCount
    ++ ",\"projection\":".data ++ quoteJson a.projection
    ++ ",\"animationType\":".data ++ quoteJson a.animationType
    ++ ",\"styleIntensity\":".data ++ renderNat a.styleIntensity
    ++ ",\"columns\":".data ++ renderNat a.columns
    ++ ",\"rows\":".data ++ renderNat a.rows
    ++ ",\"seed\":".data ++ renderNat a.seed
    ++ ",\"modelVersion\":".data ++ quoteJson a.modelVersion
    ++ [Char.ofNat 125]

/-- `fingerprintForGeneration` (sprite.service.ts lines 102-122): the
hash of the JSON payload of the semantic fields. -/
def fingerprintForGeneration (hash : List Char → String) (a : FingerprintArgs) : String :=
  hash (fingerprintPayloadChars a)

/-- `cacheKey` (sprite.service.ts line 124). -/
def fingerprintCacheKey (fingerprint : String) : String := "sprite-cache:" ++ fingerprint

/-- Generation lifecycle status. -/
inductive GenStatus
  | pending
  | processing
  | completed
  | failed
  deriving Repr, DecidableEq

/-- The columns of a stored generation row that the request-creation
path reads. -/
structure GenerationRow where
  id : String
  userId : String
  status : GenStatus
  deriving Repr, DecidableEq

/-- `GenerateSpriteInput` of sprite.service.ts. -/
inductive LayoutKind
  | row
  | grid
  deriving Repr, DecidableEq

/-- The validated request body (`GenerateSpriteInput`). -/
structure GenerateSpriteInput where
  prompt : String
  spriteSize : ℕ
  frameCount : ℕ
  projection : String
  animationType : String
  styleIntensity : ℕ
  layout : LayoutKind
  columns : Option ℕ
  seed : Option ℕ
  model : Option String
  deriving Repr, DecidableEq

/-- `validatePromptStructure` (sprite.service.ts lines 80-90): trims
and collapses whitespace, rejects prompts shorter than 4 characters or
containing angle brackets. -/
def validatePromptStructure (value : String) : Except (ℕ × String) String :=
  let prompt := normalizeWs value
  if prompt.length < 4 then .error (400, "Prompt is too short")
  else if prompt.data.any (fun c => c = '<' || c = '>') then
    .error (400, "Prompt contains disallowed characters")
  else .ok prompt

/-- `Math.ceil(Math.sqrt(n))` for natural input. -/
def ceilSqrt (n : ℕ) : ℕ :=
  if Nat.sqrt n * Nat.sqrt n = n then Nat.sqrt n else Nat.sqrt n + 1

/-- `resolveLayout` (sprite.service.ts lines 92-100).  The schema
guarantees `columns ≥ 1` when present, so the ceiling division below
matches `Math.ceil`. -/
def resolveLayout (frameCount : ℕ) (layout : LayoutKind) (columns : Option ℕ) : ℕ × ℕ :=
  match layout with
  | .row => (frameCount, 1)
  | .grid =>
    let finalColumns := columns.getD (max 1 (ceilSqrt frameCount))
    (finalColumns, (frameCount + finalColumns - 1) / finalColumns)

/-- The arguments of `buildSpritePrompt`; the prompt builder itself is
an external collaborator of this path and enters as a parameter. -/
structure SpritePromptInput where
  themePrompt : String
  spriteSize : ℕ
  frameCount : ℕ
  projection : String
  animationType : String
  styleIntensity : ℕ
  columns : ℕ
  rows : ℕ
  seed : ℕ
  compact : Bool
  deriving Repr, DecidableEq

/-- External collaborators and configuration of
`createGenerationRequest`: the redis cache read, the generation lookup,
the daily-limit check outcome, env knobs, the random seed draw and the
prompt builder. -/
structure CreateEnv where
  cacheGet : String → Option String
  findGeneration : String → String → Option GenerationRow
  dailyLimitReached : Bool
  maxEstimatedCostUsd : ℚ
  qualityMaxAttempts : ℕ
  imageModelDefault : String
  randomSeed : ℕ
  buildPrompt : SpritePromptInput → String
  newGenerationId : String

/-- The fields of the record `createGenerationRequest` inserts. -/
structure NewGeneration where
  userId : String
  prompt : String
  themePrompt : String
  styleIntensity : ℕ
  frameCount : ℕ
  spriteSize : ℕ
  projection : String
  animationType : String
  columns : ℕ
  rows : ℕ
  modelVersion : String
  seed : ℕ
  promptTokens : ℕ
  qualityWarnings : List String
  status : GenStatus
  deriving Repr, DecidableEq

/-- Outcome of `createGenerationRequest`: a thrown `ApiError`, a cache
hit answered with the stored generation (no new record, no backend
work), or a newly created `Pending` record. -/
inductive CreateOutcome
  | err (status : ℕ) (message : String)
  | cacheHit (generation : GenerationRow)
  | created (generation : NewGeneration)
  deriving Repr, DecidableEq

/-- The fingerprint arguments assembled at sprite.service.ts lines
1022-1034. -/
def createFingerprintArgs (userId : String) (input : GenerateSpriteInput)
    (themePrompt : String) (columns rows seed : ℕ) (selectedModel : String) :
    FingerprintArgs :=
  { userId := userId
    prompt := themePrompt
    spriteSize := input.spriteSize
    frameCount := input.frameCount
    projection := input.projection
    animationType := input.animationType
    styleIntensity := input.styleIntensity
    columns := columns
    rows := rows
    seed := seed
    modelVersion := selectedModel }

/-- The full prompt built for the request (sprite.service.ts lines
985-996). -/
def createFullPrompt (env : CreateEnv) (input : GenerateSpriteInput)
    (themePrompt : String) : String :=
  env.buildPrompt
    { themePrompt := themePrompt, spriteSize := input.spriteSize,
      frameCount := input.frameCount, projection := input.projection,
      animationType := input.animationType, styleIntensity := input.styleIntensity,
      columns := (resolveLayout input.frameCount input.layout input.columns).1,
      rows := (resolveLayout input.frameCount input.layout input.columns).2,
      seed := input.seed.getD env.randomSeed,
      compact := (getModelProfile (input.model.getD env.imageModelDefault)).compactPrompt }

/-- The total-cost precheck of sprite.service.ts lines 997-1020:
estimated cost over the full attempt budget compared against the
configured ceiling. -/
def createCostExceeds (env : CreateEnv) (input : GenerateSpriteInput)
    (themePrompt : String) : Bool :=
  let columns := (resolveLayout input.frameCount input.layout input.columns).1
  let rows := (resolveLayout input.frameCount input.layout input.columns).2
  let selectedModel := input.model.getD env.imageModelDefault
  let maxAttempts := min (getModelProfile selectedModel).maxAttempts
    (max 1 env.qualityMaxAttempts)
  let estimatedPromptTokens := estimateTokens (createFullPrompt env input themePrompt)
  let estimatedOutputTokensPerAttempt := estimateOutputTokens input.spriteSize columns rows
  match estimateCostUsd selectedModel (estimatedPromptTokens * maxAttempts)
    (estimatedOutputTokensPerAttempt * maxAttempts) with
  | some c => decide (c > env.maxEstimatedCostUsd)
  | none => false

/-- The fingerprint of the request (sprite.service.ts lines 1022-1034). -/
def createFingerprint (env : CreateEnv) (hash : List Char → String)
    (userId : String) (input : GenerateSpriteInput) (themePrompt : String) : String :=
  fingerprintForGeneration hash
    (createFingerprintArgs userId input themePrompt
      (resolveLayout input.frameCount input.layout input.columns).1
      (resolveLayout input.frameCount input.layout input.columns).2
      (input.seed.getD env.randomSeed) (input.model.getD env.imageModelDefault))

/-- `createGenerationRequest` (sprite.service.ts lines 967-1079):
daily-limit check, prompt validation, layout/seed/model resolution,
total-cost precheck, fingerprint cache consultation — answering a
repeated identical request from the cache when the cached generation
belongs to the same user and is not Failed — and otherwise creation of
a new `Pending` record. -/
def createGenerationRequest (env : CreateEnv) (hash : List Char → String)
    (userId : String) (input : GenerateSpriteInput) : CreateOutcome :=
  if env.dailyLimitReached then .err 429 "Daily generation limit reached"
  else
    match validatePromptStructure input.prompt with
    | .error (status, message) => .err status message
    | .ok themePrompt =>
      if createCostExceeds env input themePrompt then
        .err 402
          "Estimated token spend exceeds configured budget. Reduce frame size or choose a cheaper model."
      else
        let cachedHit : Option GenerationRow :=
          match env.cacheGet
            (fingerprintCacheKey (createFingerprint env hash userId input themePrompt)) with
          | some cachedGenerationId =>
            match env.findGeneration cachedGenerationId userId with
            | some cached => if cached.status ≠ GenStatus.failed then some cached else none
            | none => none
          | none => none
        match cachedHit with
        | some cached => .cacheHit cached
        | none =>
          .created
            { userId := userId
              prompt := createFullPrompt env input themePrompt
              themePrompt := themePrompt
              styleIntensity := input.styleIntensity
              frameCount := input.frameCount
              spriteSize := input.spriteSize
              projection := input.projection
              animationType := input.animationType
              columns := (resolveLayout input.frameCount input.layout input.columns).1
              rows := (resolveLayout input.frameCount input.layout input.columns).2
              modelVersion := input.model.getD env.imageModelDefault
              seed := input.seed.getD env.randomSeed
              promptTokens := 0
              qualityWarnings := []
              status := GenStatus.pending }

/-! ## The attempt controller (processGeneration, sprite.service.ts
lines 1108-1826)

The per-attempt pixel pipeline (normalize → clarify → stabilize →
score/verify → conditional repair acceptance, lines 1320-1434) and the
prompt builder are abstracted as oracle parameters: the loop-control
claims hold for every behaviour of those components, which are modelled
separately above and below. -/

/-- Split on `/\r?\n/` as `replaceSeedLine` does. -/
def splitLinesChars (l : List Char) : List (List Char) :=
  match l with
  | [] => [[]]
  | '\n' :: rest => [] :: splitLinesChars rest
  | '\r' :: '\n' :: rest => [] :: splitLinesChars rest
  | c :: rest =>
    match splitLinesChars rest with
    | [] => [[c]]
    | line :: more => (c :: line) :: more

/-- The `/^\s*seed=/i` test applied to a trimmed line
(sprite.service.ts lines 287 and 294). -/
def isSeedLine (line : List Char) : Bool :=
  ((jsTrimChars line).map Char.toLower).take 5 = "seed=".data

/-- `replaceSeedLine` (sprite.service.ts lines 281-299).  The seeds fed
in are unsigned 32-bit, so `Math.abs(seed >>> 0)` is `seed % 2^32`. -/
def replaceSeedLine (prompt : String) (seed : ℕ) : String :=
  let lines := splitLinesChars prompt.data
  let nextSeed := seed % 2 ^ 32
  let seedLine := "seed=".data ++ renderNat nextSeed
  let nextLines := lines.map (fun line => if isSeedLine line then seedLine else line)
  let nextLines :=
    if nextLines.all (fun line => !isSeedLine line) then nextLines ++ [seedLine]
    else nextLines
  String.mk (List.intercalate ['\n'] nextLines)

/-- Environment knobs read by `processGeneration`; the env schema
validates `QUALITY_MAX_ATTEMPTS` to an integer in [1,8]. -/
structure ProcessEnv where
  maxEstimatedCostUsd : ℚ
  qualityMaxAttempts : ℕ
  qualityMinScore : ℚ
  strictQualityGate : Bool
  deriving Repr, DecidableEq

/-- The stored generation row `processGeneration` loads. -/
structure StoredGeneration where
  id : String
  userId : String
  prompt : String
  themePrompt : String
  styleIntensity : ℕ
  frameCount : ℕ
  spriteSize : ℕ
  projection : String
  animationType : String
  columns : ℕ
  rows : ℕ
  modelVersion : String
  seed : Option ℕ
  deriving Repr, DecidableEq

/-- A JS thrown value: an `Error` carries its message; any other thrown
value has no message. -/
structure JsThrown where
  isError : Bool
  message : String
  deriving Repr, DecidableEq

/-- The reason string derived in the catch block (line 1797):
`error instanceof Error ? error.message : "Generation failed"`. -/
def unhandledReason (e : JsThrown) : String :=
  if e.isError then e.message else "Generation failed"

/-- Everything one attempt of the backend call plus pixel pipeline
produces, as consumed by the control loop (the final values after the
conditional repair acceptance of lines 1355-1434). -/
structure AttemptData where
  usedFallback : Bool
  tokenUsage : TokenUsage
  buffer : List ℕ
  qualityOk : Bool
  qualityDiagnostics : QualityDiagnostics
  qualityReasons : List String
  settingsVerification : SettingsVerificationResult
  deriving Repr, DecidableEq

/-- Oracles for the externally-modelled parts of one attempt:
`attemptSeedForAttempt` (a sha256 digest), the backend call plus pixel
pipeline, `buildQualityCorrectionPrompt`, and the settings re-check of
line 1674 (unreachable in practice). -/
structure ProcessOracle where
  seedFor : ℕ → ℕ
  backend : ℕ → String → Except JsThrown AttemptData
  correction : String → ℕ → ℕ → List String → Bool → ℕ → String
  verifyFinal : List ℕ → SettingsVerificationResult

/-- The two early-stop reasons of the attempt loop. -/
inductive StopReason
  | token_budget
  | quality_stagnation
  deriving Repr, DecidableEq

/-- Ghost observation of one executed attempt, for the stagnation
analysis. -/
structure AttemptObs where
  isFailure : Bool
  warningSignature : String
  qualityScore : ℚ
  deriving Repr, DecidableEq

/-- The observation the loop derives from an attempt: a failure iff
quality is not ok or settings verification did not pass (line 1478). -/
def mkAttemptObs (raw : AttemptData) (warningSignature : String) : AttemptObs :=
  { isFailure := !(raw.qualityOk && raw.settingsVerification.passed)
    warningSignature := warningSignature
    qualityScore := raw.qualityDiagnostics.score }

/-- The stall-tracking slice of the loop state (lines 1139-1141);
`lastFailureScore = none` models `Number.NEGATIVE_INFINITY`. -/
structure StallState where
  lastFailureSignature : Option String
  lastFailureScore : Option ℚ
  failureStallCount : ℕ
  deriving Repr, DecidableEq

/-- Initial stall-tracking values. -/
def initialStallState : StallState :=
  { lastFailureSignature := none, lastFailureScore := none, failureStallCount := 0 }

/-- `isStalled` (lines 1479-1483): a failing attempt after the first
whose signature matches the prior failing attempt and whose score
improved by at most 0.75; against the negative-infinity sentinel the
score comparison is false. -/
def isStalledAttempt (st : StallState) (attempt : ℕ) (obs : AttemptObs) : Bool :=
  obs.isFailure && decide (1 < attempt) &&
    decide (st.lastFailureSignature = some obs.warningSignature) &&
    (match st.lastFailureScore with
     | none => false
     | some s => decide (obs.qualityScore ≤ s + 3/4))

/-- The stall-state update of lines 1484-1492. -/
def stallUpdate (st : StallState) (attempt : ℕ) (obs : AttemptObs) : StallState :=
  if obs.isFailure then
    { lastFailureSignature := some obs.warningSignature
      lastFailureScore := some obs.qualityScore
      failureStallCount :=
        if isStalledAttempt st attempt obs then st.failureStallCount + 1 else 0 }
  else initialStallState

/-- The mutable state of the attempt loop, with two ghost fields
(`backendCalls`, `history`) recording backend invocations and attempt
observations for verification. -/
structure LoopState where
  activeModel : String
  maxAttempts : ℕ
  correctionIssueLimit : ℕ
  isCorrectionCompact : Bool
  promptForAttempt : String
  remainingBudgetUsd : ℚ
  stopReason : Option StopReason
  stall : StallState
  finalBuffer : Option (List ℕ)
  qualityWarnings : List String
  inputTokens : ℕ
  outputTokens : ℕ
  totalTokens : ℕ
  settingsVerification : Option SettingsVerificationResult
  qualityDiagnostics : Option QualityDiagnostics
  bestCandidate : Option AttemptCandidate
  successfulAttempt : Option ℕ
  attemptsExecuted : ℕ
  backendCalls : ℕ
  history : List AttemptObs
  deriving Repr, DecidableEq

/-- The loop-entry state (lines 1125-1151). -/
def initialLoopState (E : ProcessEnv) (gen : StoredGeneration) : LoopState :=
  let modelProfile := getModelProfile gen.modelVersion
  { activeModel := gen.modelVersion
    maxAttempts := min modelProfile.maxAttempts (max 1 E.qualityMaxAttempts)
    correctionIssueLimit := modelProfile.correctionIssueLimit.getD 2
    isCorrectionCompact := modelProfile.compactPrompt
    promptForAttempt := gen.prompt
    remainingBudgetUsd := E.maxEstimatedCostUsd
    stopReason := none
    stall := initialStallState
    finalBuffer := none
    qualityWarnings := []
    inputTokens := 0
    outputTokens := 0
    totalTokens := 0
    settingsVerification := none
    qualityDiagnostics := none
    bestCandidate := none
    successfulAttempt := none
    attemptsExecuted := 0
    backendCalls := 0
    history := [] }

/-- One-or-more iterations of the attempt loop (lines 1211-1542),
structured exactly as the source `for` loop; `fuel` only bounds the
recursion and always dominates `maxAttempts` at the call site. -/
def processLoopGo (E : ProcessEnv) (O : ProcessOracle) (gen : StoredGeneration)
    (estOut : ℕ) : ℕ → ℕ → LoopState → Except (JsThrown × LoopState) LoopState
  | 0, _, st => .ok st
  | fuel + 1, attempt, st =>
    if st.maxAttempts < attempt then .ok st
    else
      let st := { st with attemptsExecuted := attempt }
      let st := { st with
        promptForAttempt := replaceSeedLine st.promptForAttempt (O.seedFor attempt) }
      if st.remainingBudgetUsd ≤ (0 : ℚ) then
        .ok { st with stopReason := some StopReason.token_budget }
      else
        let attemptCost := buildAttemptCostEstimate st.activeModel st.promptForAttempt estOut
        if st.remainingBudgetUsd < attemptCost then
          .ok { st with stopReason := some StopReason.token_budget }
        else
          let st := { st with backendCalls := st.backendCalls + 1 }
          match O.backend attempt st.promptForAttempt with
          | .error e => .error (e, st)
          | .ok raw =>
            let modelUsed := if raw.usedFallback then "gpt-image-1" else st.activeModel
            let st :=
              if modelUsed ≠ st.activeModel then
                let newProfile := getModelProfile modelUsed
                { st with
                  activeModel := modelUsed
                  maxAttempts := min newProfile.maxAttempts (max 1 E.qualityMaxAttempts)
                  correctionIssueLimit := newProfile.correctionIssueLimit.getD 2
                  isCorrectionCompact := newProfile.compactPrompt }
              else st
            let st := { st with
              inputTokens := st.inputTokens + raw.tokenUsage.inputTokens
              outputTokens := st.outputTokens + raw.tokenUsage.outputTokens
              totalTokens := st.totalTokens + raw.tokenUsage.totalTokens
              remainingBudgetUsd := max 0 (st.remainingBudgetUsd -
                (estimateCostUsd modelUsed raw.tokenUsage.inputTokens
                  raw.tokenUsage.outputTokens).getD attemptCost) }
            let attemptWarnings :=
              dedupeWarnings (raw.qualityReasons ++ raw.settingsVerification.failures)
            let candidate := mkAttemptCandidate attempt raw.buffer attemptWarnings
              raw.qualityDiagnostics raw.settingsVerification raw.tokenUsage
            let st := { st with
              bestCandidate := updateBestCandidate st.bestCandidate candidate }
            let obs := mkAttemptObs raw candidate.warningSignature
            let isStalled := isStalledAttempt st.stall attempt obs
            let st := { st with
              stall := stallUpdate st.stall attempt obs
              history := st.history ++ [obs] }
            if st.stopReason.isNone && isStalled && decide ((2 : ℕ) ≤ st.stall.failureStallCount) then
              .ok { st with stopReason := some StopReason.quality_stagnation }
            else if raw.qualityOk && raw.settingsVerification.passed then
              .ok { st with
                finalBuffer := some raw.buffer
                qualityWarnings := attemptWarnings
                settingsVerification := some raw.settingsVerification
                qualityDiagnostics := some raw.qualityDiagnostics
                successfulAttempt := some attempt }
            else
              let st :=
                if attempt < st.maxAttempts then
                  { st with promptForAttempt :=
                      (O.correction gen.prompt (attempt + 1) st.maxAttempts
                        attemptWarnings st.isCorrectionCompact st.correctionIssueLimit) }
                else st
              processLoopGo E O gen estOut fuel (attempt + 1) st

/-- The whole attempt loop of `processGeneration`. -/
def runAttemptLoop (E : ProcessEnv) (O : ProcessOracle) (gen : StoredGeneration) :
    Except (JsThrown × LoopState) LoopState :=
  processLoopGo E O gen (estimateOutputTokens gen.spriteSize gen.columns gen.rows)
    (max 1 E.qualityMaxAttempts) 1 (initialLoopState E gen)

/-- The budget-stop warning prefixed at line 1587. -/
def budgetStopWarning : String :=
  "Stopped early due to token budget limit. Lowering prompt complexity or choosing a cheaper model may help."

/-- The stagnation-stop warning prefixed at line 1591. -/
def stagnationStopWarning : String :=
  "Stopped early due to no quality signal improvement across attempts."

/-- The fallback-acceptance warning of lines 1557-1561. -/
def acceptedFallbackWarning (best : AttemptCandidate) : String :=
  "Accepted best attempt " ++ natStr best.attempt ++ " at quality score " ++
    toFixed1 best.qualityDiagnostics.score ++ " with strict gate disabled"

/-- The synthetic no-candidate warning of lines 1583-1585. -/
def stoppedAfterWarning (attemptsExecuted maxAttempts : ℕ) : String :=
  "Generation stopped after " ++ natStr attemptsExecuted ++ "/" ++ natStr maxAttempts
    ++ " attempts"

/-- The synthetic verification of lines 1595-1622 used when no
candidate exists. -/
def syntheticFailureVerification (gen : StoredGeneration) : SettingsVerificationResult :=
  { passed := false
    summary := "Image does not meet requested settings."
    failures := ["No valid candidate produced by quality gate."]
    checks :=
      { expected :=
          { frameWidth := gen.spriteSize, frameHeight := gen.spriteSize,
            frameCount := gen.frameCount, columns := gen.columns, rows := gen.rows,
            sheetWidth := gen.spriteSize * gen.columns,
            sheetHeight := gen.spriteSize * gen.rows }
        actual :=
          { frameWidth := 0, frameHeight := 0, frameSlots := gen.columns * gen.rows,
            sheetWidth := 0, sheetHeight := 0, hasTransparency := false,
            nonEmptyFrameCount := 0, unusedSlotsWithContent := 0 } } }

/-- The record mutation `processGeneration` persists at the end. -/
structure RecordUpdate where
  status : GenStatus
  qualityWarnings : List String
  errorReason : Option String
  promptTokens : ℕ
  deriving Repr, DecidableEq

/-- The finalisation of `processGeneration` after the loop (lines
1544-1795), reduced to the record mutation; uploads, JSON export and
logging are external effects. -/
def finalizeGeneration (E : ProcessEnv) (O : ProcessOracle) (gen : StoredGeneration)
    (st : LoopState) : RecordUpdate :=
  match st.finalBuffer with
  | none =>
    let canAcceptFallback :=
      !E.strictQualityGate &&
        (match st.bestCandidate with
         | some best =>
           best.settingsVerification.passed &&
             decide (E.qualityMinScore ≤ best.qualityDiagnostics.score)
         | none => false)
    match st.bestCandidate, canAcceptFallback with
    | some best, true =>
      { status := GenStatus.completed
        qualityWarnings :=
          dedupeWarnings (best.qualityWarnings ++ [acceptedFallbackWarning best])
        errorReason := none
        promptTokens := st.inputTokens }
    | _, _ =>
      let failureWarnings :=
        dedupeWarnings
          (match st.bestCandidate with
           | some best => best.qualityWarnings
           | none => [stoppedAfterWarning st.attemptsExecuted st.maxAttempts])
      let failureWarnings :=
        match st.stopReason with
        | some StopReason.token_budget => budgetStopWarning :: failureWarnings
        | some StopReason.quality_stagnation => stagnationStopWarning :: failureWarnings
        | none => failureWarnings
      let failureVerification :=
        match st.bestCandidate with
        | some best => best.settingsVerification
        | none => syntheticFailureVerification gen
      let failureSummary :=
        if failureVerification.passed && decide (failureWarnings.length > 0) then
          "Quality gate rejected output after " ++ natStr st.attemptsExecuted ++ " attempts"
        else failureVerification.summary
      { status := GenStatus.failed
        qualityWarnings := failureWarnings
        errorReason := some failureSummary
        promptTokens := st.inputTokens }
  | some finalBuffer =>
    let sv := st.settingsVerification.getD (O.verifyFinal finalBuffer)
    if !sv.passed then
      { status := GenStatus.failed
        qualityWarnings := dedupeWarnings (st.qualityWarnings ++ sv.failures)
        errorReason := some sv.summary
        promptTokens := st.inputTokens }
    else
      { status := GenStatus.completed
        qualityWarnings := st.qualityWarnings
        errorReason := none
        promptTokens := st.inputTokens }

/-- Outcome of `processGeneration`: the terminal record mutation and,
when the body threw, the re-raised error. -/
structure ProcessResult where
  record : RecordUpdate
  rethrown : Option JsThrown
  deriving Repr, DecidableEq

/-- `processGeneration` (lines 1108-1826): run the attempt loop and
finalise; on any exception, record Failed with the truncated reason and
re-raise (the catch block, lines 1796-1825). -/
def processGeneration (E : ProcessEnv) (O : ProcessOracle) (gen : StoredGeneration) :
    ProcessResult :=
  match runAttemptLoop E O gen with
  | .ok st =>
    { record := finalizeGeneration E O gen st, rethrown := none }
  | .error (e, st) =>
    { record :=
        { status := GenStatus.failed
          qualityWarnings := st.qualityWarnings
          errorReason := some (jsTake 500 (unhandledReason e))
          promptTokens := st.inputTokens }
      rethrown := some e }

/-- Fixture environment for concrete loop runs. -/
def fixtureProcessEnv : ProcessEnv :=
  { maxEstimatedCostUsd := 100, qualityMaxAttempts := 4, qualityMinScore := 85,
    strictQualityGate := true }

/-- Fixture stored generation for concrete loop runs. -/
def fixtureGeneration : StoredGeneration :=
  { id := "gen-1", userId := "user-1", prompt := "pixel knight",
    themePrompt := "pixel knight", styleIntensity := 70, frameCount := 4,
    spriteSize := 32, projection := "2D", animationType := "walk", columns := 4,
    rows := 1, modelVersion := "gpt-image-1", seed := some 11 }

/-- Oracle whose backend throws an `Error` with an empty message. -/
def throwingOracleEmptyMsg : ProcessOracle :=
  { seedFor := fun _ => 5
    backend := fun _ _ => .error { isError := true, message := "" }
    correction := fun base _ _ _ _ _ => base
    verifyFinal := fun _ => fixturePassedVerification }

/-- Oracle whose backend throws an `Error` with message `boom`. -/
def throwingOracleBoom : ProcessOracle :=
  { seedFor := fun _ => 5
    backend := fun _ _ => .error { isError := true, message := "boom" }
    correction := fun base _ _ _ _ _ => base
    verifyFinal := fun _ => fixturePassedVerification }

/-- The loop state at the moment the fixture backend throws on attempt
one. -/
def fixtureThrowState : LoopState :=
  { initialLoopState fixtureProcessEnv fixtureGeneration with
    attemptsExecuted := 1
    promptForAttempt := replaceSeedLine "pixel knight" 5
    backendCalls := 1 }

/-- Oracle whose single backend attempt succeeds at quality and
settings. -/
def successOracle : ProcessOracle :=
  { seedFor := fun _ => 5
    backend := fun _ _ => .ok
      { usedFallback := false
        tokenUsage := { inputTokens := 10, outputTokens := 0, totalTokens := 10 }
        buffer := []
        qualityOk := true
        qualityDiagnostics :=
          { score := 90, thresholds := zeroThresholds, metrics := zeroMetrics,
            frameSummaries := [] }
        qualityReasons := []
        settingsVerification := fixturePassedVerification }
    correction := fun base _ _ _ _ _ => base
    verifyFinal := fun _ => fixturePassedVerification }

/-- The loop state after the successful fixture run. -/
def fixtureSuccessState : LoopState :=
  match runAttemptLoop fixtureProcessEnv successOracle fixtureGeneration with
  | .ok st => st
  | .error _ => initialLoopState fixtureProcessEnv fixtureGeneration

/-- The loop state after a budget stop on attempt one. -/
def budgetStopState (E : ProcessEnv) (O : ProcessOracle) (gen : StoredGeneration) :
    LoopState :=
  { initialLoopState E gen with
    attemptsExecuted := 1
    promptForAttempt := replaceSeedLine gen.prompt (O.seedFor 1)
    stopReason := some StopReason.token_budget }

/-- Fixture environment with a one-cent budget. -/
def budgetFixtureEnv : ProcessEnv :=
  { maxEstimatedCostUsd := 1/100, qualityMaxAttempts := 4, qualityMinScore := 85,
    strictQualityGate := true }

/-- Fixture generation whose large sheet drives the first-attempt
estimate above one cent. -/
def budgetFixtureGen : StoredGeneration :=
  { fixtureGeneration with
    spriteSize := 128, columns := 8, rows := 2, modelVersion := "gpt-4.1" }

/-- The loop-shape invariant of the bounded-attempts claim: the
attempt ceiling is the one resolved from the active model and executed
attempts stay within it. -/
def LoopInv (E : ProcessEnv) (st : LoopState) : Prop :=
  st.maxAttempts =
      min (getModelProfile st.activeModel).maxAttempts (max 1 E.qualityMaxAttempts) ∧
    st.attemptsExecuted ≤ st.maxAttempts

/-- `LoopInv` lifted over loop outcomes (the error state included). -/
def InvRes (E : ProcessEnv) : Except (JsThrown × LoopState) LoopState → Prop
  | .ok st => LoopInv E st
  | .error (_, st) => LoopInv E st

/-- The stall state reached after a sequence of attempt observations,
numbering attempts from 1. -/
def runStallState (history : List AttemptObs) : StallState :=
  (history.foldl (fun acc obs => (stallUpdate acc.1 acc.2 obs, acc.2 + 1))
    (initialStallState, 1)).1

/-- Whether the next observation after `history` counts as stalled. -/
def stalledAtLast (history : List AttemptObs) (obs : AttemptObs) : Bool :=
  isStalledAttempt (runStallState history) (history.length + 1) obs

/-! ## quality.service.ts: stabilizeSpriteSheet (lines 232-381)

The sharp decode/encode wrapping is external; the function is embedded
as a transformation of the decoded RGBA byte list, with `width` and
`height` the decoded dimensions. -/

/-- `pixelOffset` (quality.service.ts line 118). -/
def pixelOffset4 (x y width : ℕ) : ℕ := (y * width + x) * 4

/-- `alphaAt` (quality.service.ts line 117). -/
def alphaAt (data : List ℕ) (offset : ℕ) : ℕ := readB data (offset + 3)

/-- A frame content bounding box in frame-local coordinates. -/
structure StabBox where
  minX : ℕ
  minY : ℕ
  maxX : ℕ
  maxY : ℕ
  deriving Repr, DecidableEq

/-- `frameBox.width`. -/
def stabBoxWidth (b : StabBox) : ℕ := b.maxX - b.minX + 1

/-- `frameBox.height`. -/
def stabBoxHeight (b : StabBox) : ℕ := b.maxY - b.minY + 1

/-- One step of the min/max accumulation of lines 277-286; the
accumulator is (minX, minY, maxX, maxY) with the -1 sentinels as
integers. -/
def stabScanStep (data : List ℕ) (width ox oy : ℕ)
    (acc : ℕ × ℕ × ℤ × ℤ) (p : ℕ × ℕ) : ℕ × ℕ × ℤ × ℤ :=
  if 16 < alphaAt data (pixelOffset4 (ox + p.1) (oy + p.2) width) then
    (min acc.1 p.1, min acc.2.1 p.2, max acc.2.2.1 (p.1 : ℤ), max acc.2.2.2 (p.2 : ℤ))
  else acc

/-- The frame-local pixels in the scan order of lines 277-278. -/
def framePixelList (spriteSize : ℕ) : List (ℕ × ℕ) :=
  List.flatten ((List.range spriteSize).map (fun localY =>
    (List.range spriteSize).map (fun localX => (localX, localY))))

/-- The content box scan of one frame (lines 270-302): `none` when the
frame has no pixel with alpha above 16. -/
def stabFrameBox (data : List ℕ) (width spriteSize ox oy : ℕ) : Option StabBox :=
  let acc := (framePixelList spriteSize).foldl (stabScanStep data width ox oy)
    (spriteSize, spriteSize, -1, -1)
  if acc.2.2.1 < (acc.1 : ℤ) ∨ acc.2.2.2 < (acc.2.1 : ℤ) then none
  else some { minX := acc.1, minY := acc.2.1,
              maxX := acc.2.2.1.toNat, maxY := acc.2.2.2.toNat }

/-- The per-frame boxes in frame order (`boxes` of line 254). -/
def stabBoxes (data : List ℕ) (width spriteSize columns activeFrames : ℕ) :
    List (Option StabBox) :=
  (List.range activeFrames).map (fun f =>
    stabFrameBox data width spriteSize ((f % columns) * spriteSize)
      ((f / columns) * spriteSize))

/-- `centersX` (line 300). -/
def stabCentersX (boxes : List (Option StabBox)) : List ℚ :=
  boxes.filterMap (fun b => b.map (fun bb => ((bb.minX : ℚ) + bb.maxX) / 2))

/-- `centersY` (line 301). -/
def stabCentersY (boxes : List (Option StabBox)) : List ℚ :=
  boxes.filterMap (fun b => b.map (fun bb => ((bb.minY : ℚ) + bb.maxY) / 2))

/-- `maxFrameDimension` (lines 268, 299). -/
def stabMaxDim (boxes : List (Option StabBox)) : ℕ :=
  boxes.foldl (fun m b =>
    match b with
    | some bb => max m (max (stabBoxWidth bb) (stabBoxHeight bb))
    | none => m) 0

/-- `median` (quality.service.ts lines 224-230), with JS numeric-sort
ascending order. -/
def stabMedian (values : List ℚ) : ℚ :=
  if values.length = 0 then 0
  else
    let sorted := values.mergeSort (fun a b => a ≤ b)
    let middle := sorted.length / 2
    if sorted.length % 2 = 1 then sorted.getD middle 0
    else (sorted.getD (middle - 1) 0 + sorted.getD middle 0) / 2

/-- `effectiveInsetX` (lines 332-333): the destination inset budget,
halved when little room is left. -/
def stabEffInset (spriteSize scaledWidth innerInset : ℕ) : ℤ :=
  min (innerInset : ℤ) (max 0 ((spriteSize : ℤ) - scaledWidth) / 2)

/-- `maxDestX` (line 334). -/
def stabMaxDest (spriteSize scaledWidth innerInset : ℕ) : ℤ :=
  max 0 (((spriteSize : ℤ) - scaledWidth) - stabEffInset spriteSize scaledWidth innerInset)

/-- `destMinX` (lines 339-343): the clamped rounded placement of the
scaled content around the safe center. -/
def stabDestMin (spriteSize scaledWidth innerInset : ℕ) (safeCenter : ℚ) : ℤ :=
  min (stabMaxDest spriteSize scaledWidth innerInset)
    (max (stabEffInset spriteSize scaledWidth innerInset)
      (jsRound (safeCenter - (scaledWidth : ℚ) / 2)))

/-- `safeCenterX` (lines 311-315). -/
def stabSafeCenter (spriteSize innerInset : ℕ) (paddedHalf med : ℚ) : ℚ :=
  clampQ med ((innerInset : ℚ) + paddedHalf)
    (max ((innerInset : ℚ) + paddedHalf) ((spriteSize : ℚ) - innerInset - paddedHalf))

/-- One destination pixel of the paint loop (lines 350-368). -/
def stabPaintPixel (data : List ℕ) (width height ox oy : ℕ) (box : StabBox)
    (scale : ℚ) (destMinX destMinY : ℤ) (output : List ℕ) (p : ℕ × ℕ) : List ℕ :=
  let sourceLocalY := min (stabBoxHeight box - 1) (⌊(p.2 : ℚ) / max scale (1/1000)⌋).toNat
  let sourceLocalX := min (stabBoxWidth box - 1) (⌊(p.1 : ℚ) / max scale (1/1000)⌋).toNat
  let sourceX := ox + box.minX + sourceLocalX
  let sourceY := oy + box.minY + sourceLocalY
  let sourceOffset := pixelOffset4 sourceX sourceY width
  if alphaAt data sourceOffset ≤ 16 then output
  else
    let destX : ℤ := (ox : ℤ) + destMinX + p.1
    let destY : ℤ := (oy : ℤ) + destMinY + p.2
    if (width : ℤ) ≤ destX ∨ (height : ℤ) ≤ destY then output
    else
      let destOffset : ℤ := (destY * width + destX) * 4
      writeB (writeB (writeB (writeB output destOffset (readB data sourceOffset))
          (destOffset + 1) (readB data (sourceOffset + 1)))
          (destOffset + 2) (readB data (sourceOffset + 2)))
        (destOffset + 3) (readB data (sourceOffset + 3))

/-- The destination pixels of one frame in the order of lines 350-352. -/
def stabPaintPixelList (scaledWidth scaledHeight : ℕ) : List (ℕ × ℕ) :=
  List.flatten ((List.range scaledHeight).map (fun localY =>
    (List.range scaledWidth).map (fun localX => (localX, localY))))

/-- The per-frame paint pass (lines 323-370 body). -/
def stabPaintFrame (data : List ℕ) (width height spriteSize innerInset : ℕ)
    (baseScale safeCenterX safeCenterY : ℚ) (ox oy : ℕ) (box : StabBox)
    (output : List ℕ) : List ℕ :=
  let scale := min 1 baseScale
  let scaledWidth : ℕ := max 1 (⌊(stabBoxWidth box : ℚ) * scale⌋).toNat
  let scaledHeight : ℕ := max 1 (⌊(stabBoxHeight box : ℚ) * scale⌋).toNat
  let destMinX := stabDestMin spriteSize scaledWidth innerInset safeCenterX
  let destMinY := stabDestMin spriteSize scaledHeight innerInset safeCenterY
  (stabPaintPixelList scaledWidth scaledHeight).foldl
    (stabPaintPixel data width height ox oy box scale destMinX destMinY) output

/-- `stabilizeSpriteSheet` (quality.service.ts lines 232-381) on the
decoded RGBA byte list. -/
def stabilizeSpriteSheet (data : List ℕ) (width height spriteSize columns rows
    frameCount : ℕ) : List ℕ :=
  let totalSlots := columns * rows
  let activeFrames := min totalSlots (max 1 frameCount)
  let innerInset : ℕ := max 2 (spriteSize * 6 / 100)
  let boxes := stabBoxes data width spriteSize columns activeFrames
  let centersX := stabCentersX boxes
  let centersY := stabCentersY boxes
  let maxFrameDimension := stabMaxDim boxes
  if centersX.length = 0 then data
  else
    let frameInset : ℕ := max innerInset (spriteSize * 1 / 100)
    let maxFrameContentSize : ℤ := max 2 ((spriteSize : ℤ) - 2 * frameInset)
    let baseScale : ℚ :=
      min 1 ((maxFrameContentSize : ℚ) / ((max 1 maxFrameDimension : ℕ) : ℚ))
    let paddedHalfContentX : ℚ :=
      clampQ ((⌊(maxFrameDimension : ℚ) * baseScale / 2⌋ : ℤ) : ℚ) 0
        ((spriteSize : ℚ) / 2)
    let paddedHalfContentY : ℚ :=
      clampQ ((⌊(maxFrameDimension : ℚ) * baseScale / 2⌋ : ℤ) : ℚ) 0
        ((spriteSize : ℚ) / 2)
    let safeCenterX := stabSafeCenter spriteSize innerInset paddedHalfContentX
      (stabMedian centersX)
    let safeCenterY := stabSafeCenter spriteSize innerInset paddedHalfContentY
      (stabMedian centersY)
    let output := List.replicate data.length 0
    (List.range activeFrames).foldl (fun out f =>
      match stabFrameBox data width spriteSize ((f % columns) * spriteSize)
          ((f / columns) * spriteSize) with
      | none => out
      | some box =>
        stabPaintFrame data width height spriteSize innerInset baseScale
          safeCenterX safeCenterY ((f % columns) * spriteSize)
          ((f / columns) * spriteSize) box out) output

/-- Fixture sheet for the stabiliser: 16x8 RGBA, two 8-pixel frames; a
2x2 content box at [3,4]^2 in frame 0 and a 3x3 box at local [3,5]^2 in
frame 1. -/
def stabFixtureData : List ℕ :=
  List.flatten ((List.range 128).map (fun i =>
    let x := i % 16
    let y := i / 16
    if (3 ≤ x ∧ x ≤ 4 ∧ 3 ≤ y ∧ y ≤ 4) ∨ (11 ≤ x ∧ x ≤ 13 ∧ 3 ≤ y ∧ y ≤ 5) then
      [200, 100, 50, 255]
    else [0, 0, 0, 0]))

/-- Fixture sheet with a single nonempty frame: a 3x3 box at [4,6]^2 in
frame 0 of a 16x8 sheet. -/
def stabSingleFixture : List ℕ :=
  List.flatten ((List.range 128).map (fun i =>
    let x := i % 16
    let y := i / 16
    if 4 ≤ x ∧ x ≤ 6 ∧ 4 ≤ y ∧ y ≤ 6 then [10, 20, 30, 255]
    else [0, 0, 0, 0]))

/-- The stabiliser output on `stabFixtureData`: frame 0 kept at [3,4]^2,
frame 1 translated to local [2,4]^2. -/
def stabFixtureOnce : List ℕ :=
  List.flatten ((List.range 128).map (fun i =>
    let x := i % 16
    let y := i / 16
    if (3 ≤ x ∧ x ≤ 4 ∧ 3 ≤ y ∧ y ≤ 4) ∨ (10 ≤ x ∧ x ≤ 12 ∧ 2 ≤ y ∧ y ≤ 4) then
      [200, 100, 50, 255]
    else [0, 0, 0, 0]))

/-- The stabiliser output on `stabSingleFixture`: the single box
translated to [3,5]^2. -/
def stabSingleOnce : List ℕ :=
  List.flatten ((List.range 128).map (fun i =>
    let x := i % 16
    let y := i / 16
    if 3 ≤ x ∧ x ≤ 5 ∧ 3 ≤ y ∧ y ≤ 5 then [10, 20, 30, 255]
    else [0, 0, 0, 0]))

/-- The stagnation book-keeping invariant: the stall slice agrees with
the replayed history, and the stop reason is tied to the stall counter
of the replayed history. -/
def StagnationInv (st : LoopState) : Prop :=
  st.stall = runStallState st.history ∧
  ((st.stopReason = none ∧
      (runStallState st.history).failureStallCount < 2) ∨
   (st.stopReason = some StopReason.quality_stagnation ∧
      2 ≤ (runStallState st.history).failureStallCount) ∨
   (st.stopReason = some StopReason.token_budget ∧
      (runStallState st.history).failureStallCount < 2))

/-- `StagnationInv` on the normal outcome of the loop. -/
def StagnationRes : Except (JsThrown × LoopState) LoopState → Prop
  | .ok st => StagnationInv st
  | .error _ => True

/-- Concrete failing observation for the stagnation witness. -/
def fixtureFailObs : AttemptObs :=
  { isFailure := true, warningSignature := "w", qualityScore := 40 }

/-! # Theorems -/

/-! ### Range facts about the final score -/

theorem round_le_round_of_le {x y : ℚ} (h : x ≤ y) : round x ≤ round y := by
  rw [round_eq, round_eq]
  exact Int.floor_le_floor (by linarith)

theorem roundTo1_mem_of_mem {q : ℚ} (h0 : 0 ≤ q) (h100 : q ≤ 100) :
    0 ≤ roundTo1 q ∧ roundTo1 q ≤ 100 := by
  unfold roundTo1
  have hlo : (0 : ℤ) ≤ round (q * 10) := by
    have h := round_le_round_of_le (x := 0) (y := q * 10) (by linarith)
    simpa using h
  have hhi : round (q * 10) ≤ (1000 : ℤ) := by
    have h := round_le_round_of_le (x := q * 10) (y := 1000) (by linarith)
    simpa using h
  constructor
  · have : (0 : ℚ) ≤ (round (q * 10) : ℚ) := by exact_mod_cast hlo
    linarith
  · have : ((round (q * 10) : ℚ)) ≤ 1000 := by exact_mod_cast hhi
    linarith

theorem clampQ_mem (v : ℚ) {lo hi : ℚ} (h : lo ≤ hi) :
    lo ≤ clampQ v lo hi ∧ clampQ v lo hi ≤ hi := by
  unfold clampQ
  exact ⟨le_min h (le_max_left lo v), min_le_left hi (max lo v)⟩

theorem finalScore_range (s : ℚ) :
    0 ≤ roundTo1 (clampQ s 0 100) ∧ roundTo1 (clampQ s 0 100) ≤ 100 := by
  have h := @clampQ_mem s 0 100 (by norm_num)
  exact roundTo1_mem_of_mem h.1 h.2

theorem scoreFromPenalties_range (reasons : List String) (thresholds : QualityThresholds)
    (metrics : QualityMetrics) (hdm ht : Bool) :
    0 ≤ scoreFromPenalties reasons thresholds metrics hdm ht ∧
      scoreFromPenalties reasons thresholds metrics hdm ht ≤ 100 := by
  unfold scoreFromPenalties
  exact finalScore_range _

/-! ## Decimal rendering: injectivity -/

theorem digitCh_inj {a b : ℕ} (ha : a < 10) (hb : b < 10) (h : digitCh a = digitCh b) :
    a = b := by
  interval_cases a <;> interval_cases b <;> simp_all [digitCh]

theorem digits_map_digitCh_inj :
    ∀ (l1 l2 : List ℕ), (∀ d ∈ l1, d < 10) → (∀ d ∈ l2, d < 10) →
      l1.map digitCh = l2.map digitCh → l1 = l2 := by
  intro l1
  induction l1 with
  | nil =>
    intro l2 _ _ h
    cases l2 with
    | nil => rfl
    | cons d t => simp at h
  | cons d1 t1 ih =>
    intro l2 h1 h2 h
    cases l2 with
    | nil => simp at h
    | cons d2 t2 =>
      simp only [List.map_cons, List.cons.injEq] at h
      have hd := digitCh_inj (h1 d1 (by simp)) (h2 d2 (by simp)) h.1
      have ht := ih t2 (fun d hd => h1 d (by simp [hd])) (fun d hd => h2 d (by simp [hd])) h.2
      rw [hd, ht]

theorem renderNat_inj : ∀ {a b : ℕ}, renderNat a = renderNat b → a = b := by
  have hzero : ∀ {n : ℕ}, n ≠ 0 → renderNat n ≠ ['0'] := by
    intro n hn hcon
    unfold renderNat at hcon
    rw [if_neg hn] at hcon
    have hlen : (Nat.digits 10 n).reverse.length = 1 := by
      have := congrArg List.length hcon
      simpa using this
    obtain ⟨d, hd⟩ := List.length_eq_one.mp hlen
    rw [hd] at hcon
    simp only [List.map_cons, List.map_nil, List.cons.injEq] at hcon
    have hdlt : d < 10 := by
      have hdm : d ∈ (Nat.digits 10 n).reverse := by simp [hd]
      exact Nat.digits_lt_base (by norm_num) (List.mem_reverse.mp hdm)
    have hd0 : d = 0 := digitCh_inj hdlt (by norm_num) hcon.1
    have hdig : Nat.digits 10 n = [d] := by
      have := congrArg List.reverse hd
      simpa using this
    have hn0 : n = 0 := by
      have hofd := Nat.ofDigits_digits 10 n
      rw [hdig, hd0] at hofd
      simpa [Nat.ofDigits] using hofd.symm
    exact hn hn0
  intro a b h
  by_cases ha : a = 0
  · by_cases hb : b = 0
    · rw [ha, hb]
    · exfalso
      apply hzero hb
      rw [← h, ha]
      rfl
  · by_cases hb : b = 0
    · exfalso
      apply hzero ha
      rw [h, hb]
      rfl
    · unfold renderNat at h
      rw [if_neg ha, if_neg hb] at h
      have hda : ∀ d ∈ (Nat.digits 10 a).reverse, d < 10 := fun d hd =>
        Nat.digits_lt_base (by norm_num) (List.mem_reverse.mp hd)
      have hdb : ∀ d ∈ (Nat.digits 10 b).reverse, d < 10 := fun d hd =>
        Nat.digits_lt_base (by norm_num) (List.mem_reverse.mp hd)
      have hrev := digits_map_digitCh_inj _ _ hda hdb h
      have hdig : Nat.digits 10 a = Nat.digits 10 b := by
        have := congrArg List.reverse hrev
        simpa using this
      calc a = Nat.ofDigits 10 (Nat.digits 10 a) := (Nat.ofDigits_digits 10 a).symm
        _ = Nat.ofDigits 10 (Nat.digits 10 b) := by rw [hdig]
        _ = b := Nat.ofDigits_digits 10 b


theorem selectNearestDonorFrame_eq_fold (t : ℕ) (c0 : FrameOccupancy)
    (rest : List FrameOccupancy) :
    selectNearestDonorFrame t (c0 :: rest) =
      some ((c0 :: rest).foldl (donorStep t) c0) := rfl

theorem donorFold_spec (t : ℕ) (l : List FrameOccupancy) (b0 : FrameOccupancy) :
    (donorDist t (l.foldl (donorStep t) b0) ≤ donorDist t b0 ∧
      ∀ c ∈ l, donorDist t (l.foldl (donorStep t) b0) ≤ donorDist t c) ∧
    (l.foldl (donorStep t) b0 = b0 ∨
      ∃ pre post, l = pre ++ (l.foldl (donorStep t) b0) :: post ∧
        donorDist t (l.foldl (donorStep t) b0) < donorDist t b0 ∧
        ∀ c ∈ pre, donorDist t (l.foldl (donorStep t) b0) < donorDist t c) := by
  induction l generalizing b0 with
  | nil => exact ⟨⟨le_refl _, by simp⟩, Or.inl rfl⟩
  | cons c rest ih =>
    simp only [List.foldl_cons]
    by_cases hc : donorDist t c < donorDist t b0
    · rw [show donorStep t b0 c = c from if_pos hc]
      obtain ⟨⟨h1, h2⟩, h3⟩ := ih c
      have hrb : donorDist t (rest.foldl (donorStep t) c) < donorDist t b0 :=
        lt_of_le_of_lt h1 hc
      refine ⟨⟨le_of_lt hrb, ?_⟩, ?_⟩
      · intro x hx
        rcases List.mem_cons.mp hx with hx | hx
        · rw [hx]; exact h1
        · exact h2 x hx
      · rcases h3 with h3 | ⟨pre, post, hdecomp, hlt, hpre⟩
        · refine Or.inr ⟨[], rest, ?_, hrb, by simp⟩
          rw [h3]
          simp
        · refine Or.inr ⟨c :: pre, post, by rw [List.cons_append, ← hdecomp], hrb, ?_⟩
          intro x hx
          rcases List.mem_cons.mp hx with hx | hx
          · rw [hx]; exact hlt
          · exact hpre x hx
    · rw [show donorStep t b0 c = b0 from if_neg hc]
      obtain ⟨⟨h1, h2⟩, h3⟩ := ih b0
      have hcb : donorDist t b0 ≤ donorDist t c := le_of_not_lt hc
      refine ⟨⟨h1, ?_⟩, ?_⟩
      · intro x hx
        rcases List.mem_cons.mp hx with hx | hx
        · rw [hx]; exact le_trans h1 hcb
        · exact h2 x hx
      · rcases h3 with h3 | ⟨pre, post, hdecomp, hlt, hpre⟩
        · exact Or.inl h3
        · refine Or.inr ⟨c :: pre, post, by rw [List.cons_append, ← hdecomp], hlt, ?_⟩
          intro x hx
          rcases List.mem_cons.mp hx with hx | hx
          · rw [hx]; exact lt_of_lt_of_le hlt hcb
          · exact hpre x hx

/-- C9 counterexample: for a donor bounding box of width 25, the spec
formula `floor(0.08 × width)` gives a 2-pixel inset, but the code caps
the inset at 1 (`Math.min(1, ...)`), so the copied region differs from
the claimed one. -/
theorem donorInset_counterexample :
    specClaimedInset (donorBox25.maxX - donorBox25.minX + 1) = 2 ∧
    donorInset (donorBox25.maxX - donorBox25.minX + 1) = 1 ∧
    (donorRegionOf donorBox25).minX ≠
      donorBox25.minX + specClaimedInset (donorBox25.maxX - donorBox25.minX + 1) := by
  refine ⟨?_, ?_, ?_⟩
  · with_unfolding_all decide
  · with_unfolding_all decide
  · with_unfolding_all decide

/-- C9 (amended): for every near-empty target frame the selected donor
is the candidate with smallest absolute index distance, the first in
array order on ties; and the copied region is the donor bounding box
cropped per side by `min(1, floor(0.08 × boxDimension))` — which agrees
with the claimed `floor(0.08 × boxDimension)` only for box dimensions up
to 24. -/
theorem selectNearestDonorFrame_nearest_and_inset :
    (∀ (t : ℕ) (candidates : List FrameOccupancy) (d : FrameOccupancy),
        selectNearestDonorFrame t candidates = some d →
        (∀ c ∈ candidates, donorDist t d ≤ donorDist t c) ∧
        ∃ pre post, candidates = pre ++ d :: post ∧
          ∀ c ∈ pre, donorDist t d < donorDist t c) ∧
    (∀ extent : ℤ, 1 ≤ extent →
        donorInset extent = min 1 (specClaimedInset extent) ∧
        (extent ≤ 24 → donorInset extent = specClaimedInset extent)) := by
  constructor
  · intro t candidates d hsel
    match candidates, hsel with
    | c0 :: rest, hsel =>
      rw [selectNearestDonorFrame_eq_fold, Option.some.injEq] at hsel
      obtain ⟨⟨h1, h2⟩, h3⟩ := donorFold_spec t (c0 :: rest) c0
      rw [hsel] at h1 h2 h3
      refine ⟨h2, ?_⟩
      rcases h3 with h3 | ⟨pre, post, hdecomp, _, hpre⟩
      · exact ⟨[], rest, by rw [h3]; simp, by simp⟩
      · exact ⟨pre, post, hdecomp, hpre⟩
  · intro extent hext
    have hnn : (0 : ℤ) ≤ ⌊(extent : ℚ) * (2/25)⌋ := by
      apply Int.floor_nonneg.mpr
      have h1 : (1 : ℚ) ≤ (extent : ℚ) := by exact_mod_cast hext
      nlinarith
    constructor
    · unfold donorInset specClaimedInset
      rw [max_eq_right hnn]
    · intro hle
      have hup : ⌊(extent : ℚ) * (2/25)⌋ ≤ 1 := by
        have h24 : (extent : ℚ) ≤ 24 := by exact_mod_cast hle
        have hmono : ⌊(extent : ℚ) * (2/25)⌋ ≤ ⌊(48/25 : ℚ)⌋ :=
          Int.floor_le_floor (by nlinarith)
        have h48 : ⌊(48/25 : ℚ)⌋ = 1 := by norm_num [Int.floor_eq_iff]
        omega
      unfold donorInset specClaimedInset
      rw [max_eq_right hnn, min_eq_right hup]
/-- C9 witness: with candidates at indices 2 and 5 and target 4, the
donor selected is frame 5 and it minimises the index distance; and a
10-wide box gets the same inset under code and claim. -/
theorem selectNearestDonorFrame_nearest_and_inset_witness :
    (selectNearestDonorFrame 4 [occFrame2, occFrame5] = some occFrame5 ∧
      ∀ c ∈ [occFrame2, occFrame5], donorDist 4 occFrame5 ≤ donorDist 4 c) ∧
    donorInset 10 = specClaimedInset 10 :=
  ⟨⟨by decide,
    (selectNearestDonorFrame_nearest_and_inset.1 4 [occFrame2, occFrame5] occFrame5
      (by decide)).1⟩,
   (selectNearestDonorFrame_nearest_and_inset.2 10 (by norm_num)).2 (by norm_num)⟩
/-- C1 counterexample: for a loop-built candidate with quality score 50
whose settings verification failed (one warning), the rank the code uses
is 31.5 — `candidate.score` carries a −18 settings penalty folded in at
construction — while the spec formula gives 49.5. -/
theorem candidateRank_ne_specClaimedRank :
    candidateRank cexFailingCandidate = 63/2 ∧
      specClaimedRank cexFailingCandidate = 99/2 ∧
      candidateRank cexFailingCandidate ≠ specClaimedRank cexFailingCandidate :=
  ⟨by norm_num [candidateRank, specClaimedRank, cexFailingCandidate, mkAttemptCandidate,
      attemptRankedScore, cexFailingDiagnostics, cexFailingVerification],
   by norm_num [candidateRank, specClaimedRank, cexFailingCandidate, mkAttemptCandidate,
      attemptRankedScore, cexFailingDiagnostics, cexFailingVerification],
   by norm_num [candidateRank, specClaimedRank, cexFailingCandidate, mkAttemptCandidate,
      attemptRankedScore, cexFailingDiagnostics, cexFailingVerification]⟩

/-- C1 (amended): for every candidate as the attempt loop builds it, the
rank used to pick the best candidate equals
`(settingsPassed ? 1000 : 0) + qualityScore − (settingsPassed ? 0 : 18) −
0.5 × warningCount`, and a later candidate replaces the best-so-far only
when its rank strictly exceeds the current best rank, so an exact tie
keeps the earlier attempt. -/
theorem candidateRank_formula_and_strict_update :
    (∀ (attempt : ℕ) (buffer : List ℕ) (warnings : List String)
        (diag : QualityDiagnostics) (verif : SettingsVerificationResult) (usage : TokenUsage),
        candidateRank (mkAttemptCandidate attempt buffer warnings diag verif usage) =
          (if verif.passed then (1000 : ℚ) else 0) + diag.score
            - (if verif.passed then (0 : ℚ) else 18) - (warnings.length : ℚ) * (1/2)) ∧
    (∀ c, updateBestCandidate none c = some c) ∧
    (∀ b c, candidateRank c > candidateRank b → updateBestCandidate (some b) c = some c) ∧
    (∀ b c, candidateRank c ≤ candidateRank b → updateBestCandidate (some b) c = some b) := by
  refine ⟨?_, ?_, ?_, ?_⟩
  · intro attempt buffer warnings diag verif usage
    by_cases hp : verif.passed
    all_goals simp [candidateRank, mkAttemptCandidate, attemptRankedScore, hp]
    all_goals ring
  · intro c
    rfl
  · intro b c hgt
    simp [updateBestCandidate, hgt]
  · intro b c hle
    simp [updateBestCandidate, not_lt.mpr hle]

/-- C1 witness: the strict-update clauses at concrete candidates — a
strictly better candidate replaces the best, and an exact tie keeps the
earlier one. -/
theorem candidateRank_formula_and_strict_update_witness :
    (candidateRank fixtureCandidate90 > candidateRank fixtureCandidate80 ∧
      updateBestCandidate (some fixtureCandidate80) fixtureCandidate90 =
        some fixtureCandidate90) ∧
    (candidateRank fixtureCandidate90 ≤ candidateRank fixtureCandidate90 ∧
      updateBestCandidate (some fixtureCandidate90) fixtureCandidate90 =
        some fixtureCandidate90) :=
  ⟨⟨by with_unfolding_all decide,
    candidateRank_formula_and_strict_update.2.2.1 _ _ (by with_unfolding_all decide)⟩,
   ⟨le_refl _, candidateRank_formula_and_strict_update.2.2.2 _ _ (le_refl _)⟩⟩

/-- C5: for every input, the quality validator returns a score in [0,100]
(100 minus independently capped per-category penalties, clamped and
rounded); when the returned reasons list is empty the score is at least
`minScore`; and `ok` is true iff the reasons list is empty and the score
is at least `minScore`.  Stated over `validateSpriteQualityOutcome` with
the pixel-scan products universally quantified, so it covers every
buffer input of `validateSpriteQuality`. -/
theorem validateSpriteQuality_score_contract
    (r0 : List String) (th : QualityThresholds) (me : QualityMetrics)
    (fs : List FrameQualitySummary) (dm tr : Bool) (ms : ℚ) (w h : ℤ) :
    (0 ≤ (validateSpriteQualityOutcome r0 th me fs dm tr ms w h).diagnostics.score ∧
      (validateSpriteQualityOutcome r0 th me fs dm tr ms w h).diagnostics.score ≤ 100) ∧
    ((validateSpriteQualityOutcome r0 th me fs dm tr ms w h).reasons = [] →
      ms ≤ (validateSpriteQualityOutcome r0 th me fs dm tr ms w h).diagnostics.score) ∧
    ((validateSpriteQualityOutcome r0 th me fs dm tr ms w h).ok = true ↔
      ((validateSpriteQualityOutcome r0 th me fs dm tr ms w h).reasons = [] ∧
        ms ≤ (validateSpriteQualityOutcome r0 th me fs dm tr ms w h).diagnostics.score)) := by
  have hrange := scoreFromPenalties_range r0 th me dm tr
  by_cases hlt : scoreFromPenalties r0 th me dm tr < ms
  · simp only [validateSpriteQualityOutcome, if_pos hlt]
    refine ⟨hrange, ?_, ?_⟩
    · intro hempty
      exact absurd hempty (by simp)
    · constructor
      · intro hok
        exact absurd hok (by simp [not_le.mpr hlt])
      · rintro ⟨hempty, -⟩
        exact absurd hempty (by simp)
  · simp only [validateSpriteQualityOutcome, if_neg hlt]
    refine ⟨hrange, fun _ => not_lt.mp hlt, ?_⟩
    simp [not_lt.mp hlt, List.length_eq_zero]

/-- C5 witness: a concrete evaluation with empty scan reasons and floor
0, where the returned reasons list is empty and the score meets the
floor. -/
theorem validateSpriteQuality_score_contract_witness :
    (validateSpriteQualityOutcome [] zeroThresholds zeroMetrics [] false true 0 0 0).reasons
        = [] ∧
      (0 : ℚ) ≤ (validateSpriteQualityOutcome [] zeroThresholds zeroMetrics [] false true
        0 0 0).diagnostics.score :=
  ⟨by with_unfolding_all decide,
   (validateSpriteQuality_score_contract [] zeroThresholds zeroMetrics [] false true 0 0 0).2.1
     (by with_unfolding_all decide)⟩


theorem readB_writeB_ne (l : List ℕ) (j i : ℤ) (v : ℕ) (hne : i ≠ j) :
    readB (writeB l j v) i = readB l i := by
  unfold readB writeB
  by_cases hi : 0 ≤ i
  · by_cases hj : 0 ≤ j
    · have htn : i.toNat ≠ j.toNat := fun hEq => hne (by omega)
      simp only [if_pos hi, if_pos hj]
      simp [List.getD, List.getElem?_set_ne (Ne.symm htn)]
    · simp [if_pos hi, if_neg hj]
  · simp [if_neg hi]

theorem foldl_readB_preserved {γ ι : Type} (S : ℤ → Prop)
    (step : List ℕ × γ → ι → List ℕ × γ) (items : List ι)
    (hstep : ∀ acc it, it ∈ items → ∀ i, ¬ S i → readB (step acc it).1 i = readB acc.1 i) :
    ∀ acc i, ¬ S i → readB (items.foldl step acc).1 i = readB acc.1 i := by
  induction items with
  | nil => intro acc i _; rfl
  | cons a rest ih =>
    intro acc i hi
    rw [List.foldl_cons]
    rw [ih (fun acc it hit => hstep acc it (List.mem_cons_of_mem _ hit)) (step acc a) i hi]
    exact hstep acc a (List.mem_cons_self _ _) i hi

theorem repairWritePixel_preserves (data : List ℕ) (width height : ℤ) (s : ℕ)
    (frames : List FrameOccupancy) (emptyFrame donor : FrameOccupancy)
    (region : DonorRegion) (dsx dsy cs : ℤ) (acc : List ℕ × ℕ) (ly lx : ℕ)
    (hmem : emptyFrame ∈ frames) (i : ℤ) (hi : ¬ offsetInCells frames s width i) :
    readB (repairWritePixel data width height s emptyFrame donor region dsx dsy cs
      acc ly lx).1 i = readB acc.1 i := by
  unfold repairWritePixel
  dsimp only
  split_ifs with h1 h2 h3 h4
  · rfl
  · rfl
  · rfl
  · rfl
  · push_neg at h3 h4
    have hcell : inFrameCell emptyFrame s (dsx + lx) (dsy + ly) :=
      ⟨h3.1, h4.1, h3.2, h4.2⟩
    have hoff : ∀ c : ℕ, c < 4 →
        offsetInCells frames s width (((dsy + ly) * width + (dsx + lx)) * 4 + c) :=
      fun c hc => ⟨emptyFrame, hmem, dsx + lx, dsy + ly, c, hcell, hc, rfl⟩
    have hne : ∀ c : ℕ, c < 4 → i ≠ ((dsy + ly) * width + (dsx + lx)) * 4 + c :=
      fun c hc hEq => hi (hEq ▸ hoff c hc)
    rw [readB_writeB_ne _ _ _ _ (by simpa using hne 3 (by norm_num)),
      readB_writeB_ne _ _ _ _ (by simpa using hne 2 (by norm_num)),
      readB_writeB_ne _ _ _ _ (by simpa using hne 1 (by norm_num)),
      readB_writeB_ne _ _ _ _ (by simpa using hne 0 (by norm_num))]

theorem repairCopyLoops_preserves (data : List ℕ) (width height : ℤ) (s : ℕ)
    (frames : List FrameOccupancy) (emptyFrame donor : FrameOccupancy)
    (region : DonorRegion) (dsx dsy cs : ℤ) (out0 : List ℕ)
    (hmem : emptyFrame ∈ frames) (i : ℤ) (hi : ¬ offsetInCells frames s width i) :
    readB (repairCopyLoops data width height s emptyFrame donor region dsx dsy cs out0).1 i
      = readB out0 i := by
  unfold repairCopyLoops
  exact foldl_readB_preserved (offsetInCells frames s width) _ _
    (fun acc ly _ j hj =>
      foldl_readB_preserved (offsetInCells frames s width) _ _
        (fun acc2 lx _ k hk =>
          repairWritePixel_preserves data width height s frames emptyFrame donor region
            dsx dsy cs acc2 ly lx hmem k hk) acc j hj)
    (out0, 0) i hi

theorem repairFrame_preserves (data : List ℕ) (width height : ℤ) (s : ℕ)
    (frames nonEmptyFrames : List FrameOccupancy) (emptyFrame : FrameOccupancy)
    (acc : List ℕ × List ℕ) (hmem : emptyFrame ∈ frames) (i : ℤ)
    (hi : ¬ offsetInCells frames s width i) :
    readB (repairFrame data width height s nonEmptyFrames acc emptyFrame).1 i
      = readB acc.1 i := by
  unfold repairFrame
  split
  · rfl
  · split
    · rfl
    · dsimp only
      split_ifs with hreg hcopy
      · rfl
      · exact repairCopyLoops_preserves data width height s frames emptyFrame _ _ _ _ _ _
          hmem i hi
      · exact repairCopyLoops_preserves data width height s frames emptyFrame _ _ _ _ _ _
          hmem i hi

theorem rowmajor_offset_inj {width x x2 y y2 : ℤ} (hx0 : 0 ≤ x) (hxw : x < width)
    (hx20 : 0 ≤ x2) (hx2w : x2 < width) (h : y * width + x = y2 * width + x2) :
    x = x2 ∧ y = y2 := by
  have hw : 0 < width := lt_of_le_of_lt hx0 hxw
  have hkey : (y - y2) * width = x2 - x := by ring_nf; linarith
  rcases lt_trichotomy y y2 with hy | hy | hy
  · exfalso
    have h1 : y - y2 ≤ -1 := by omega
    have h2 : (y - y2) * width ≤ -1 * width := by
      exact mul_le_mul_of_nonneg_right h1 (le_of_lt hw)
    have h3 : x2 - x > -width := by omega
    nlinarith
  · have h0 : (0 : ℤ) = x2 - x := by
      rw [hy] at hkey
      simpa using hkey
    exact ⟨by omega, hy⟩
  · exfalso
    have h1 : 1 ≤ y - y2 := by omega
    have h2 : 1 * width ≤ (y - y2) * width := by
      exact mul_le_mul_of_nonneg_right h1 (le_of_lt hw)
    have h3 : x2 - x < width := by omega
    nlinarith

theorem findFrameOccupancy_origin (data : List ℕ) (width : ℤ)
    (s columns frameCount rows : ℕ) (f : FrameOccupancy)
    (hf : f ∈ findFrameOccupancy data width s columns frameCount rows) :
    f.frameIndex < max 1 (min frameCount (columns * rows)) ∧
      f.originX = ((f.frameIndex % columns) * s : ℕ) ∧
      f.originY = ((f.frameIndex / columns) * s : ℕ) := by
  unfold findFrameOccupancy at hf
  simp only [List.mem_map, List.mem_range] at hf
  obtain ⟨idx, hidx, rfl⟩ := hf
  exact ⟨hidx, rfl, rfl⟩

theorem frameCell_pixel_bounds (data : List ℕ) (width height : ℤ)
    (s columns frameCount rows : ℕ) (hc : 0 < columns) (hr : 0 < rows)
    (hw : ((s * columns : ℕ) : ℤ) ≤ width) (hh : ((s * rows : ℕ) : ℤ) ≤ height)
    (f : FrameOccupancy) (hf : f ∈ findFrameOccupancy data width s columns frameCount rows)
    (x y : ℤ) (hcell : inFrameCell f s x y) :
    0 ≤ x ∧ x < width ∧ 0 ≤ y ∧ y < height := by
  obtain ⟨hidx, hox, hoy⟩ := findFrameOccupancy_origin data width s columns frameCount rows f hf
  obtain ⟨h1, h2, h3, h4⟩ := hcell
  have hmod : f.frameIndex % columns < columns := Nat.mod_lt _ hc
  have hdiv : f.frameIndex / columns < rows := by
    have hlt : f.frameIndex < columns * rows := by
      have : max 1 (min frameCount (columns * rows)) ≤ max 1 (columns * rows) := by
        exact max_le_max (le_refl 1) (min_le_right _ _)
      have h1r : 1 ≤ columns * rows := Nat.one_le_iff_ne_zero.mpr (by positivity)
      omega
    exact Nat.div_lt_of_lt_mul (by omega)
  have hxu : ((f.frameIndex % columns) * s : ℕ) + (s : ℤ) ≤ ((s * columns : ℕ) : ℤ) := by
    push_cast
    have : ((f.frameIndex % columns : ℕ) : ℤ) + 1 ≤ (columns : ℤ) := by exact_mod_cast hmod
    nlinarith [Nat.cast_nonneg (α := ℤ) s]
  have hyu : ((f.frameIndex / columns) * s : ℕ) + (s : ℤ) ≤ ((s * rows : ℕ) : ℤ) := by
    push_cast
    have : ((f.frameIndex / columns : ℕ) : ℤ) + 1 ≤ (rows : ℤ) := by exact_mod_cast hdiv
    nlinarith [Nat.cast_nonneg (α := ℤ) s]
  refine ⟨?_, ?_, ?_, ?_⟩
  · calc (0 : ℤ) ≤ f.originX := by rw [hox]; positivity
      _ ≤ x := h1
  · calc x < f.originX + s := h2
      _ ≤ width := by rw [hox]; exact le_trans hxu hw
  · calc (0 : ℤ) ≤ f.originY := by rw [hoy]; positivity
      _ ≤ y := h3
  · calc y < f.originY + s := h4
      _ ≤ height := by rw [hoy]; exact le_trans hyu hh

/-- C10: `repairNearEmptyFrames` writes only pixels lying inside the
cells of frames classified near-empty (opaque-pixel count below
`max(1, floor(spriteSize² × 0.015))`): every pixel outside those cells
is identical to the input at the raw RGBA level, and when there is no
near-empty frame or no non-near-empty donor frame the input buffer is
returned unchanged with zero repaired slots. -/
theorem repairNearEmptyFrames_frame_effect
    (data : List ℕ) (width height : ℤ) (s columns rows frameCount : ℕ)
    (hc : 0 < columns) (hr : 0 < rows)
    (hw : ((s * columns : ℕ) : ℤ) ≤ width) (hh : ((s * rows : ℕ) : ℤ) ≤ height) :
    (∀ x y : ℤ, ∀ ch : ℕ, 0 ≤ x → x < width → 0 ≤ y → y < height → ch < 4 →
      (∀ f ∈ (findFrameOccupancy data width s columns frameCount rows).filter
          (fun f => f.pixelCount < targetMinFillPixels s),
        ¬ inFrameCell f s x y) →
      readB (repairNearEmptyFrames data width height s columns rows frameCount).buffer
          ((y * width + x) * 4 + ch)
        = readB data ((y * width + x) * 4 + ch)) ∧
    (((findFrameOccupancy data width s columns frameCount rows).filter
          (fun f => f.pixelCount < targetMinFillPixels s) = [] ∨
        (findFrameOccupancy data width s columns frameCount rows).filter
          (fun f => targetMinFillPixels s ≤ f.pixelCount) = []) →
      repairNearEmptyFrames data width height s columns rows frameCount =
        { buffer := data, repairedSlots := 0, repairedFrameIndices := [] }) := by
  constructor
  · intro x y ch hx0 hxw hy0 hyh hch hnone
    have hnoS : ¬ offsetInCells
        ((findFrameOccupancy data width s columns frameCount rows).filter
          (fun f => f.pixelCount < targetMinFillPixels s)) s width
        ((y * width + x) * 4 + ch) := by
      rintro ⟨f, hfmem, x2, y2, c2, hcell2, hc2, hEq⟩
      have hfocc : f ∈ findFrameOccupancy data width s columns frameCount rows :=
        (List.mem_filter.mp hfmem).1
      obtain ⟨hx20, hx2w, hy20, hy2h⟩ :=
        frameCell_pixel_bounds data width height s columns frameCount rows hc hr hw hh
          f hfocc x2 y2 hcell2
      have hAB : y * width + x = y2 * width + x2 := by omega
      obtain ⟨hxx, hyy⟩ := rowmajor_offset_inj hx0 hxw hx20 hx2w hAB
      exact hnone f hfmem (hxx ▸ hyy ▸ hcell2)
    unfold repairNearEmptyFrames
    dsimp only
    split_ifs with hempty hfolded
    · rfl
    · rfl
    · exact foldl_readB_preserved _ _ _
        (fun acc it hit j hj =>
          repairFrame_preserves data width height s _ _ it acc hit j hj)
        (data, []) _ hnoS
  · intro hid
    unfold repairNearEmptyFrames
    dsimp only
    have hempty : (((findFrameOccupancy data width s columns frameCount rows).filter
          (fun f => f.pixelCount < targetMinFillPixels s)).isEmpty
        || ((findFrameOccupancy data width s columns frameCount rows).filter
          (fun f => targetMinFillPixels s ≤ f.pixelCount)).isEmpty) = true := by
      rcases hid with hid | hid
      · simp [hid]
      · simp [hid]
    rw [if_pos hempty]

/-! ## C6: fingerprint determinism, seed sensitivity, cache answer -/

theorem fingerprintPayload_seed_inj {a1 a2 : FingerprintArgs}
    (hu : a1.userId = a2.userId) (hp : a1.prompt = a2.prompt)
    (hs : a1.spriteSize = a2.spriteSize) (hf : a1.frameCount = a2.frameCount)
    (hpr : a1.projection = a2.projection) (han : a1.animationType = a2.animationType)
    (hst : a1.styleIntensity = a2.styleIntensity) (hco : a1.columns = a2.columns)
    (hr : a1.rows = a2.rows) (hm : a1.modelVersion = a2.modelVersion)
    (hpl : fingerprintPayloadChars a1 = fingerprintPayloadChars a2) :
    a1.seed = a2.seed := by
  unfold fingerprintPayloadChars at hpl
  rw [hu, hp, hs, hf, hpr, han, hst, hco, hr, hm] at hpl
  simp only [List.append_assoc] at hpl
  repeat replace hpl := List.append_cancel_left hpl
  exact renderNat_inj (List.append_cancel_right hpl)

/-- C6: the fingerprint is a deterministic function of exactly the
semantic fields; with an injective hash, two argument records equal on
every field except the seed get different fingerprints; and a request
whose fingerprint maps to a cached non-failed generation of the same
user is answered with that generation — no new record is created and no
backend work started. -/
theorem fingerprint_semantics_and_cache :
    (∀ (hash : List Char → String) (a1 a2 : FingerprintArgs),
        a1 = a2 → fingerprintForGeneration hash a1 = fingerprintForGeneration hash a2) ∧
    (∀ (hash : List Char → String), Function.Injective hash →
      ∀ a1 a2 : FingerprintArgs,
        a1.userId = a2.userId → a1.prompt = a2.prompt → a1.spriteSize = a2.spriteSize →
        a1.frameCount = a2.frameCount → a1.projection = a2.projection →
        a1.animationType = a2.animationType → a1.styleIntensity = a2.styleIntensity →
        a1.columns = a2.columns → a1.rows = a2.rows → a1.modelVersion = a2.modelVersion →
        a1.seed ≠ a2.seed →
        fingerprintForGeneration hash a1 ≠ fingerprintForGeneration hash a2) ∧
    (∀ (env : CreateEnv) (hash : List Char → String) (userId : String)
        (input : GenerateSpriteInput) (themePrompt gid : String) (row : GenerationRow),
        env.dailyLimitReached = false →
        validatePromptStructure input.prompt = .ok themePrompt →
        createCostExceeds env input themePrompt = false →
        env.cacheGet (fingerprintCacheKey
          (createFingerprint env hash userId input themePrompt)) = some gid →
        env.findGeneration gid userId = some row →
        row.status ≠ GenStatus.failed →
        createGenerationRequest env hash userId input = .cacheHit row) := by
  refine ⟨?_, ?_, ?_⟩
  · intro hash a1 a2 h
    rw [h]
  · intro hash hinj a1 a2 hu hp hs hf hpr han hst hco hr hm hseed hcon
    apply hseed
    exact fingerprintPayload_seed_inj hu hp hs hf hpr han hst hco hr hm (hinj hcon)
  · intro env hash userId input themePrompt gid row hdaily hvalid hcost hcache hfind hstatus
    unfold createGenerationRequest
    rw [hdaily, hvalid]
    simp only [Bool.false_eq_true, if_false, hcost, hcache, hfind, if_neg,
      ne_eq]
    rw [if_pos hstatus]

/-- Fixture environment for the cache-path witness. -/
def fixtureCreateEnv : CreateEnv :=
  { cacheGet := fun _ => some "gen-1"
    findGeneration := fun gid userId =>
      if gid = "gen-1" && userId = "user-1" then
        some { id := "gen-1", userId := "user-1", status := GenStatus.completed }
      else none
    dailyLimitReached := false
    maxEstimatedCostUsd := 100
    qualityMaxAttempts := 4
    imageModelDefault := "gpt-image-1"
    randomSeed := 7
    buildPrompt := fun args => args.themePrompt
    newGenerationId := "gen-2" }

/-- Fixture request body for the cache-path witness. -/
def fixtureSpriteInput : GenerateSpriteInput :=
  { prompt := "pixel knight"
    spriteSize := 32
    frameCount := 4
    projection := "2D"
    animationType := "walk"
    styleIntensity := 70
    layout := LayoutKind.row
    columns := none
    seed := some 11
    model := some "gpt-image-1" }

/-- Fixture fingerprint arguments differing from a twin only in seed. -/
def fixtureFingerprintArgsSeed11 : FingerprintArgs :=
  { userId := "user-1", prompt := "pixel knight", spriteSize := 32, frameCount := 4,
    projection := "2D", animationType := "walk", styleIntensity := 70,
    columns := 4, rows := 1, seed := 11, modelVersion := "gpt-image-1" }

/-- Twin of the fixture fingerprint arguments with seed 12. -/
def fixtureFingerprintArgsSeed12 : FingerprintArgs :=
  { fixtureFingerprintArgsSeed11 with seed := 12 }

/-- C6 witness: with the identity-like injective hash the two
seed-variant fixtures produce different fingerprints, and the concrete
cached request is answered with the stored generation. -/
theorem fingerprint_semantics_and_cache_witness :
    fingerprintForGeneration (fun l => String.mk l) fixtureFingerprintArgsSeed11 ≠
      fingerprintForGeneration (fun l => String.mk l) fixtureFingerprintArgsSeed12 ∧
    createGenerationRequest fixtureCreateEnv (fun l => String.mk l) "user-1"
        fixtureSpriteInput =
      .cacheHit { id := "gen-1", userId := "user-1", status := GenStatus.completed } :=
  ⟨fingerprint_semantics_and_cache.2.1 (fun l => String.mk l)
      (fun a b h => congrArg String.data h)
      fixtureFingerprintArgsSeed11 fixtureFingerprintArgsSeed12
      rfl rfl rfl rfl rfl rfl rfl rfl rfl rfl (by decide),
   fingerprint_semantics_and_cache.2.2 fixtureCreateEnv (fun l => String.mk l) "user-1"
      fixtureSpriteInput "pixel knight" "gen-1"
      { id := "gen-1", userId := "user-1", status := GenStatus.completed }
      rfl (by with_unfolding_all rfl) (by with_unfolding_all rfl)
      (by with_unfolding_all rfl) (by with_unfolding_all rfl) (by decide)⟩

/-- C10 witness: in the concrete fixture the byte at pixel (0,0),
outside the near-empty cell, is unchanged by the repair. -/
theorem repairNearEmptyFrames_frame_effect_witness :
    (∀ f ∈ (findFrameOccupancy repairFixtureData 4 2 2 2 1).filter
        (fun f => f.pixelCount < targetMinFillPixels 2),
      ¬ inFrameCell f 2 0 0) ∧
    readB (repairNearEmptyFrames repairFixtureData 4 2 2 2 1 2).buffer 0
      = readB repairFixtureData 0 :=
  ⟨by decide,
   by
    have h := (repairNearEmptyFrames_frame_effect repairFixtureData 4 2 2 2 1 2
      (by norm_num) (by norm_num) (by norm_num) (by norm_num)).1 0 0 0
      (by norm_num) (by norm_num) (by norm_num) (by norm_num) (by norm_num) (by decide)
    simpa using h⟩

/-! ### C7: the unhandled-error catch block -/

/-- C7 counterexample: when the body throws an `Error` whose message is
empty, the catch block records `errorReason` as the empty string — the
spec's promised non-empty reason does not hold. -/
theorem processGeneration_emptyReason_counterexample :
    (processGeneration fixtureProcessEnv throwingOracleEmptyMsg fixtureGeneration).record.status
        = GenStatus.failed ∧
    (processGeneration fixtureProcessEnv throwingOracleEmptyMsg fixtureGeneration).record.errorReason
        = some "" ∧
    (processGeneration fixtureProcessEnv throwingOracleEmptyMsg fixtureGeneration).rethrown
        = some { isError := true, message := "" } := by
  refine ⟨?_, ?_, ?_⟩
  all_goals with_unfolding_all decide

/-- C7 (amended): if `processGeneration` terminates by raising, the
record is set to Failed with `errorReason` equal to the thrown error's
message (or "Generation failed" for a non-`Error` value) truncated to
500 characters, and the original error is re-raised; the recorded
reason is non-empty whenever that message is non-empty, but an `Error`
with an empty message yields an empty recorded reason. -/
theorem processGeneration_unhandled_error (E : ProcessEnv) (O : ProcessOracle)
    (gen : StoredGeneration) (e : JsThrown) (st : LoopState)
    (h : runAttemptLoop E O gen = .error (e, st)) :
    (processGeneration E O gen).record.status = GenStatus.failed ∧
    (processGeneration E O gen).record.errorReason
        = some (jsTake 500 (unhandledReason e)) ∧
    (processGeneration E O gen).rethrown = some e ∧
    (unhandledReason e ≠ "" →
      (processGeneration E O gen).record.errorReason ≠ some "") := by
  unfold processGeneration
  rw [h]
  refine ⟨rfl, rfl, rfl, ?_⟩
  intro hmsg hcon
  apply hmsg
  simp only [Option.some.injEq] at hcon
  unfold jsTake at hcon
  have hdata : (unhandledReason e).data.take 500 = [] := by
    simpa using congrArg String.data hcon
  have hnil : (unhandledReason e).data = [] := by
    rcases hd : (unhandledReason e).data with _ | ⟨c, rest⟩
    · rfl
    · rw [hd] at hdata
      simp [List.take] at hdata
  exact String.ext hnil

/-- C7 witness: instantiating the amended theorem on the fixture whose
backend throws `Error("boom")`. -/
theorem processGeneration_unhandled_error_witness :
    runAttemptLoop fixtureProcessEnv throwingOracleBoom fixtureGeneration
        = .error ({ isError := true, message := "boom" }, fixtureThrowState) ∧
    (processGeneration fixtureProcessEnv throwingOracleBoom fixtureGeneration).record.status
        = GenStatus.failed ∧
    (processGeneration fixtureProcessEnv throwingOracleBoom fixtureGeneration).record.errorReason
        = some "boom" :=
  have hrun : runAttemptLoop fixtureProcessEnv throwingOracleBoom fixtureGeneration
      = .error ({ isError := true, message := "boom" }, fixtureThrowState) := by
    with_unfolding_all rfl
  have h := processGeneration_unhandled_error fixtureProcessEnv throwingOracleBoom
    fixtureGeneration { isError := true, message := "boom" } fixtureThrowState hrun
  ⟨hrun, h.1, h.2.1.trans (by with_unfolding_all decide)⟩

/-! ### C3: the token-budget stop -/

theorem getModelProfile_maxAttempts_bounds (m : String) :
    1 ≤ (getModelProfile m).maxAttempts ∧ (getModelProfile m).maxAttempts ≤ 4 := by
  unfold getModelProfile modelRatesFind
  split_ifs <;> simp [Option.getD]

/-- C3: if at the start of an attempt the remaining budget is ≤ 0 or
that attempt's estimated cost (prompt tokens from the seed-rewritten
prompt, output tokens from the sheet pixel count, priced by the model
rates) exceeds the remaining budget, the loop returns at once with stop
reason `token_budget`, changing only the attempt counter and the
seed-rewritten prompt — so no backend call happens for that attempt;
when this holds on attempt 1 the whole run makes zero backend calls and
the record ends Failed with the budget warning first in its warning
list. -/
theorem processGeneration_token_budget_stop :
    (∀ (E : ProcessEnv) (O : ProcessOracle) (gen : StoredGeneration)
        (estOut fuel attempt : ℕ) (st : LoopState),
      attempt ≤ st.maxAttempts →
      (st.remainingBudgetUsd ≤ 0 ∨
        st.remainingBudgetUsd < buildAttemptCostEstimate st.activeModel
          (replaceSeedLine st.promptForAttempt (O.seedFor attempt)) estOut) →
      processLoopGo E O gen estOut (fuel + 1) attempt st =
        .ok { st with
          attemptsExecuted := attempt
          promptForAttempt := replaceSeedLine st.promptForAttempt (O.seedFor attempt)
          stopReason := some StopReason.token_budget }) ∧
    (∀ (E : ProcessEnv) (O : ProcessOracle) (gen : StoredGeneration),
      (E.maxEstimatedCostUsd ≤ 0 ∨
        E.maxEstimatedCostUsd < buildAttemptCostEstimate gen.modelVersion
          (replaceSeedLine gen.prompt (O.seedFor 1))
          (estimateOutputTokens gen.spriteSize gen.columns gen.rows)) →
      runAttemptLoop E O gen = .ok (budgetStopState E O gen) ∧
      (budgetStopState E O gen).backendCalls = 0 ∧
      (processGeneration E O gen).record.status = GenStatus.failed ∧
      (processGeneration E O gen).record.qualityWarnings.head?
          = some budgetStopWarning) := by
  have step : ∀ (E : ProcessEnv) (O : ProcessOracle) (gen : StoredGeneration)
      (estOut fuel attempt : ℕ) (st : LoopState),
      attempt ≤ st.maxAttempts →
      (st.remainingBudgetUsd ≤ 0 ∨
        st.remainingBudgetUsd < buildAttemptCostEstimate st.activeModel
          (replaceSeedLine st.promptForAttempt (O.seedFor attempt)) estOut) →
      processLoopGo E O gen estOut (fuel + 1) attempt st =
        .ok { st with
          attemptsExecuted := attempt
          promptForAttempt := replaceSeedLine st.promptForAttempt (O.seedFor attempt)
          stopReason := some StopReason.token_budget } := by
    intro E O gen estOut fuel attempt st hatt hcond
    unfold processLoopGo
    rw [if_neg (not_lt.mpr hatt)]
    dsimp only
    by_cases hb : st.remainingBudgetUsd ≤ (0 : ℚ)
    · rw [if_pos hb]
    · rw [if_neg hb]
      have hc : st.remainingBudgetUsd < buildAttemptCostEstimate st.activeModel
          (replaceSeedLine st.promptForAttempt (O.seedFor attempt)) estOut := by
        rcases hcond with h | h
        · exact absurd h hb
        · exact h
      rw [if_pos hc]
  refine ⟨step, ?_⟩
  intro E O gen hcond
  have hatt : 1 ≤ (initialLoopState E gen).maxAttempts := by
    show 1 ≤ min (getModelProfile gen.modelVersion).maxAttempts
      (max 1 E.qualityMaxAttempts)
    exact le_min (getModelProfile_maxAttempts_bounds gen.modelVersion).1
      (le_max_left 1 _)
  obtain ⟨f, hf⟩ : ∃ f, max 1 E.qualityMaxAttempts = f + 1 :=
    ⟨max 1 E.qualityMaxAttempts - 1, by omega⟩
  have hloop : runAttemptLoop E O gen = .ok (budgetStopState E O gen) := by
    unfold runAttemptLoop
    rw [hf]
    exact step E O gen (estimateOutputTokens gen.spriteSize gen.columns gen.rows) f 1
      (initialLoopState E gen) hatt hcond
  refine ⟨hloop, rfl, ?_, ?_⟩
  · unfold processGeneration
    rw [hloop]
    rfl
  · unfold processGeneration
    rw [hloop]
    rfl

/-- C3 witness: a $0.01 budget against a large-sheet `gpt-4.1` request
whose first-attempt estimate exceeds it: the run stops with zero
backend calls and a Failed record. -/
theorem processGeneration_token_budget_stop_witness :
    budgetFixtureEnv.maxEstimatedCostUsd < buildAttemptCostEstimate
        budgetFixtureGen.modelVersion
        (replaceSeedLine budgetFixtureGen.prompt (successOracle.seedFor 1))
        (estimateOutputTokens budgetFixtureGen.spriteSize budgetFixtureGen.columns
          budgetFixtureGen.rows) ∧
    runAttemptLoop budgetFixtureEnv successOracle budgetFixtureGen
        = .ok (budgetStopState budgetFixtureEnv successOracle budgetFixtureGen) ∧
    (budgetStopState budgetFixtureEnv successOracle budgetFixtureGen).backendCalls = 0 ∧
    (processGeneration budgetFixtureEnv successOracle budgetFixtureGen).record.status
        = GenStatus.failed :=
  have hc : budgetFixtureEnv.maxEstimatedCostUsd < buildAttemptCostEstimate
      budgetFixtureGen.modelVersion
      (replaceSeedLine budgetFixtureGen.prompt (successOracle.seedFor 1))
      (estimateOutputTokens budgetFixtureGen.spriteSize budgetFixtureGen.columns
        budgetFixtureGen.rows) := by with_unfolding_all decide
  have h := processGeneration_token_budget_stop.2 budgetFixtureEnv successOracle
    budgetFixtureGen (Or.inr hc)
  ⟨hc, h.1, h.2.1, h.2.2.1⟩

/-! ### C4: bounded attempts -/

theorem gptImage1_maxAttempts : (getModelProfile "gpt-image-1").maxAttempts = 4 := by
  decide

theorem processLoopGo_resInv (E : ProcessEnv) (O : ProcessOracle)
    (gen : StoredGeneration) (estOut : ℕ) :
    ∀ (fuel attempt : ℕ) (st : LoopState), LoopInv E st →
      InvRes E (processLoopGo E O gen estOut fuel attempt st) := by
  intro fuel
  induction fuel with
  | zero =>
    intro attempt st hinv
    exact hinv
  | succ fuel ih =>
    intro attempt st hinv
    unfold processLoopGo
    by_cases hguard : st.maxAttempts < attempt
    · rw [if_pos hguard]
      exact hinv
    · rw [if_neg hguard]
      have hatt : attempt ≤ st.maxAttempts := not_lt.mp hguard
      dsimp only
      by_cases hb : st.remainingBudgetUsd ≤ (0 : ℚ)
      · rw [if_pos hb]
        exact ⟨hinv.1, hatt⟩
      · rw [if_neg hb]
        by_cases hc : st.remainingBudgetUsd <
            buildAttemptCostEstimate st.activeModel
              (replaceSeedLine st.promptForAttempt (O.seedFor attempt)) estOut
        · rw [if_pos hc]
          exact ⟨hinv.1, hatt⟩
        · rw [if_neg hc]
          cases hback : O.backend attempt
              (replaceSeedLine st.promptForAttempt (O.seedFor attempt)) with
          | error e => exact ⟨hinv.1, hatt⟩
          | ok raw =>
            dsimp only
            by_cases hfb : raw.usedFallback = true
            · rw [if_pos hfb]
              by_cases hsw : ("gpt-image-1" : String) ≠ st.activeModel
              · rw [if_pos hsw]
                have hatt2 : attempt ≤ min (getModelProfile "gpt-image-1").maxAttempts
                    (max 1 E.qualityMaxAttempts) := by
                  refine hatt.trans ?_
                  rw [hinv.1]
                  exact min_le_min (le_trans
                    (getModelProfile_maxAttempts_bounds st.activeModel).2
                    (by rw [gptImage1_maxAttempts])) le_rfl
                split_ifs
                all_goals first
                  | exact ⟨rfl, hatt2⟩
                  | exact ih (attempt + 1) _ ⟨rfl, hatt2⟩
              · rw [if_neg hsw]
                split_ifs
                all_goals first
                  | exact ⟨hinv.1, hatt⟩
                  | exact ih (attempt + 1) _ ⟨hinv.1, hatt⟩
            · rw [if_neg hfb]
              have hne : ¬ (st.activeModel ≠ st.activeModel) := fun h => h rfl
              rw [if_neg hne]
              split_ifs
              all_goals first
                | exact ⟨hinv.1, hatt⟩
                | exact ih (attempt + 1) _ ⟨hinv.1, hatt⟩

/-- C4: with at least one configured attempt, every terminal loop state
(normal or thrown) satisfies: the resolved ceiling is
min(active model's profile ceiling, QUALITY_MAX_ATTEMPTS) — re-resolved
from the new profile whenever a fallback switch changed the active
model — and the number of executed attempts never exceeds it. -/
theorem processGeneration_bounded_attempts (E : ProcessEnv) (O : ProcessOracle)
    (gen : StoredGeneration) (hq : 1 ≤ E.qualityMaxAttempts) :
    (∀ st, runAttemptLoop E O gen = .ok st →
      st.maxAttempts
          = min (getModelProfile st.activeModel).maxAttempts E.qualityMaxAttempts ∧
      st.attemptsExecuted
          ≤ min (getModelProfile st.activeModel).maxAttempts E.qualityMaxAttempts) ∧
    (∀ e st, runAttemptLoop E O gen = .error (e, st) →
      st.attemptsExecuted
          ≤ min (getModelProfile st.activeModel).maxAttempts E.qualityMaxAttempts) := by
  have hmax : max 1 E.qualityMaxAttempts = E.qualityMaxAttempts := max_eq_right hq
  have hres := processLoopGo_resInv E O gen
    (estimateOutputTokens gen.spriteSize gen.columns gen.rows)
    (max 1 E.qualityMaxAttempts) 1 (initialLoopState E gen) ⟨rfl, Nat.zero_le _⟩
  constructor
  · intro st hok
    unfold runAttemptLoop at hok
    rw [hok] at hres
    obtain ⟨h1, h2⟩ := hres
    rw [hmax] at h1
    exact ⟨h1, by rw [← h1]; exact h2⟩
  · intro e st herr
    unfold runAttemptLoop at herr
    rw [herr] at hres
    obtain ⟨h1, h2⟩ := hres
    rw [hmax] at h1
    rw [← h1]
    exact h2

/-- C4 witness: on the throwing fixture run the executed-attempt count
stays within the resolved ceiling. -/
theorem processGeneration_bounded_attempts_witness :
    1 ≤ fixtureProcessEnv.qualityMaxAttempts ∧
    runAttemptLoop fixtureProcessEnv throwingOracleBoom fixtureGeneration
        = .error ({ isError := true, message := "boom" }, fixtureThrowState) ∧
    fixtureThrowState.attemptsExecuted ≤
      min (getModelProfile fixtureThrowState.activeModel).maxAttempts
        fixtureProcessEnv.qualityMaxAttempts :=
  have hq : 1 ≤ fixtureProcessEnv.qualityMaxAttempts := by decide
  have hrun : runAttemptLoop fixtureProcessEnv throwingOracleBoom fixtureGeneration
      = .error ({ isError := true, message := "boom" }, fixtureThrowState) := by
    with_unfolding_all rfl
  ⟨hq, hrun,
   (processGeneration_bounded_attempts fixtureProcessEnv throwingOracleBoom
      fixtureGeneration hq).2 { isError := true, message := "boom" }
      fixtureThrowState hrun⟩

/-! ### C2: stagnation tracking -/

theorem stallFold_snd (h : List AttemptObs) :
    ∀ (acc : StallState × ℕ),
      (h.foldl (fun acc obs => (stallUpdate acc.1 acc.2 obs, acc.2 + 1)) acc).2
        = acc.2 + h.length := by
  induction h with
  | nil =>
    intro acc
    simp
  | cons a t iht =>
    intro acc
    simp only [List.foldl_cons, List.length_cons]
    rw [iht]
    omega

theorem runStallState_append (h : List AttemptObs) (obs : AttemptObs) :
    runStallState (h ++ [obs]) = stallUpdate (runStallState h) (h.length + 1) obs := by
  unfold runStallState
  rw [List.foldl_append]
  simp only [List.foldl_cons, List.foldl_nil]
  rw [stallFold_snd h (initialStallState, 1)]
  dsimp only
  rw [Nat.add_comm 1 h.length]

theorem mkAttemptObs_not_failure (raw : AttemptData) (sig : String)
    (h : (raw.qualityOk && raw.settingsVerification.passed) = true) :
    (mkAttemptObs raw sig).isFailure = false := by
  unfold mkAttemptObs
  dsimp only
  rw [h]
  rfl

theorem stallUpdate_not_failure (st : StallState) (attempt : ℕ) (obs : AttemptObs)
    (hf : obs.isFailure = false) : stallUpdate st attempt obs = initialStallState := by
  unfold stallUpdate
  rw [if_neg (by simp [hf])]

theorem stalledAtLast_of_not_failure (h : List AttemptObs) (obs : AttemptObs)
    (hf : obs.isFailure = false) : stalledAtLast h obs = false := by
  unfold stalledAtLast isStalledAttempt
  rw [hf]
  rfl

theorem stallUpdate_count_pos_stalled (st : StallState) (attempt : ℕ)
    (obs : AttemptObs)
    (hc : 1 ≤ (stallUpdate st attempt obs).failureStallCount) :
    isStalledAttempt st attempt obs = true := by
  unfold stallUpdate at hc
  by_cases hf : obs.isFailure = true
  · rw [if_pos hf] at hc
    dsimp only at hc
    by_cases hs : isStalledAttempt st attempt obs = true
    · exact hs
    · rw [if_neg hs] at hc
      omega
  · rw [if_neg hf] at hc
    exact absurd hc (by decide)

theorem runStallState_count_last (h : List AttemptObs) (obs : AttemptObs) :
    (runStallState (h ++ [obs])).failureStallCount =
      if stalledAtLast h obs then (runStallState h).failureStallCount + 1 else 0 := by
  rw [runStallState_append]
  unfold stallUpdate stalledAtLast
  cases hf : obs.isFailure with
  | false =>
    rw [if_neg (by simp [hf])]
    have hs : isStalledAttempt (runStallState h) (h.length + 1) obs = false := by
      unfold isStalledAttempt
      rw [hf]
      rfl
    rw [if_neg (by simp [hs])]
    rfl
  | true =>
    rw [if_pos rfl]

theorem stalledAtLast_iff_count_pos (h : List AttemptObs) (obs : AttemptObs) :
    stalledAtLast h obs = true ↔
      1 ≤ (runStallState (h ++ [obs])).failureStallCount := by
  rw [runStallState_count_last]
  by_cases hs : stalledAtLast h obs = true
  · rw [if_pos hs]
    exact ⟨fun _ => by omega, fun _ => hs⟩
  · rw [if_neg hs]
    exact ⟨fun hcon => absurd hcon hs, fun hcon => by omega⟩

theorem count_pos_decomp (hist : List AttemptObs)
    (hc : 1 ≤ (runStallState hist).failureStallCount) :
    ∃ h obs, hist = h ++ [obs] ∧ stalledAtLast h obs = true := by
  induction hist using List.reverseRecOn with
  | nil => exact absurd hc (by decide)
  | append_singleton h obs ih =>
    by_cases hs : stalledAtLast h obs = true
    · exact ⟨h, obs, rfl, hs⟩
    · rw [runStallState_count_last, if_neg hs] at hc
      omega

theorem count_ge_two_iff (hist : List AttemptObs) :
    2 ≤ (runStallState hist).failureStallCount ↔
      ∃ h obs1 obs2, hist = h ++ [obs1, obs2] ∧
        stalledAtLast h obs1 = true ∧ stalledAtLast (h ++ [obs1]) obs2 = true := by
  constructor
  · intro hc
    induction hist using List.reverseRecOn with
    | nil => exact absurd hc (by decide)
    | append_singleton h obs2 ih =>
      rw [runStallState_count_last] at hc
      by_cases hs : stalledAtLast h obs2 = true
      · rw [if_pos hs] at hc
        obtain ⟨h0, obs1, hdec, hs1⟩ := count_pos_decomp h (by omega)
        refine ⟨h0, obs1, obs2, ?_, hs1, ?_⟩
        · rw [hdec, List.append_assoc]
          rfl
        · rw [← hdec]
          exact hs
      · rw [if_neg hs] at hc
        omega
  · rintro ⟨h, obs1, obs2, hdec, hs1, hs2⟩
    have hsplit : h ++ [obs1, obs2] = (h ++ [obs1]) ++ [obs2] := by simp
    rw [hdec, hsplit, runStallState_count_last, if_pos hs2]
    have := (stalledAtLast_iff_count_pos h obs1).mp hs1
    omega

theorem processLoopGo_stagRes (E : ProcessEnv) (O : ProcessOracle)
    (gen : StoredGeneration) (estOut : ℕ) :
    ∀ (fuel attempt : ℕ) (st : LoopState),
      st.stall = runStallState st.history →
      st.stopReason = none →
      (runStallState st.history).failureStallCount < 2 →
      attempt = st.history.length + 1 →
      StagnationRes (processLoopGo E O gen estOut fuel attempt st) := by
  intro fuel
  induction fuel with
  | zero =>
    intro attempt st hsync hstop hcnt hattempt
    exact ⟨hsync, Or.inl ⟨hstop, hcnt⟩⟩
  | succ fuel ih =>
    intro attempt st hsync hstop hcnt hattempt
    unfold processLoopGo
    by_cases hguard : st.maxAttempts < attempt
    · rw [if_pos hguard]
      exact ⟨hsync, Or.inl ⟨hstop, hcnt⟩⟩
    · rw [if_neg hguard]
      dsimp only
      by_cases hb : st.remainingBudgetUsd ≤ (0 : ℚ)
      · rw [if_pos hb]
        exact ⟨hsync, Or.inr (Or.inr ⟨rfl, hcnt⟩)⟩
      · rw [if_neg hb]
        by_cases hc : st.remainingBudgetUsd <
            buildAttemptCostEstimate st.activeModel
              (replaceSeedLine st.promptForAttempt (O.seedFor attempt)) estOut
        · rw [if_pos hc]
          exact ⟨hsync, Or.inr (Or.inr ⟨rfl, hcnt⟩)⟩
        · rw [if_neg hc]
          cases hback : O.backend attempt
              (replaceSeedLine st.promptForAttempt (O.seedFor attempt)) with
          | error e => trivial
          | ok raw =>
            dsimp only
            have hsync2 : ∀ obs : AttemptObs,
                stallUpdate st.stall attempt obs
                  = runStallState (st.history ++ [obs]) := by
              intro obs
              rw [runStallState_append, ← hsync, ← hattempt]
            have hcnt2 : ∀ obs : AttemptObs,
                ¬ ((st.stopReason.isNone && isStalledAttempt st.stall attempt obs &&
                    decide ((2 : ℕ) ≤ (stallUpdate st.stall attempt obs).failureStallCount))
                      = true) →
                (runStallState (st.history ++ [obs])).failureStallCount < 2 := by
              intro obs h1
              by_contra hge
              push_neg at hge
              apply h1
              rw [← hsync2 obs] at hge
              have hstalled := stallUpdate_count_pos_stalled st.stall attempt obs
                (by omega)
              simp only [Bool.and_eq_true, decide_eq_true_eq]
              exact ⟨⟨by rw [hstop]; rfl, hstalled⟩, hge⟩
            have hlen2 : ∀ obs : AttemptObs,
                attempt + 1 = (st.history ++ [obs]).length + 1 := by
              intro obs
              simp [hattempt]
            by_cases hfb : raw.usedFallback = true
            · rw [if_pos hfb]
              by_cases hsw : ("gpt-image-1" : String) ≠ st.activeModel
              · rw [if_pos hsw]
                split_ifs with h1 h2 h3
                · exact ⟨hsync2 _, Or.inr (Or.inl ⟨rfl, by
                    rw [← hsync2 _]
                    simp only [Bool.and_eq_true, decide_eq_true_eq] at h1
                    exact h1.2⟩)⟩
                · exact ⟨hsync2 _, Or.inl ⟨hstop, by
                    rw [← hsync2 _, stallUpdate_not_failure _ _ _
                      (mkAttemptObs_not_failure _ _ h2)]
                    decide⟩⟩
                · exact ih (attempt + 1) _ (hsync2 _) hstop (hcnt2 _ h1) (hlen2 _)
                · exact ih (attempt + 1) _ (hsync2 _) hstop (hcnt2 _ h1) (hlen2 _)
              · rw [if_neg hsw]
                split_ifs with h1 h2 h3
                · exact ⟨hsync2 _, Or.inr (Or.inl ⟨rfl, by
                    rw [← hsync2 _]
                    simp only [Bool.and_eq_true, decide_eq_true_eq] at h1
                    exact h1.2⟩)⟩
                · exact ⟨hsync2 _, Or.inl ⟨hstop, by
                    rw [← hsync2 _, stallUpdate_not_failure _ _ _
                      (mkAttemptObs_not_failure _ _ h2)]
                    decide⟩⟩
                · exact ih (attempt + 1) _ (hsync2 _) hstop (hcnt2 _ h1) (hlen2 _)
                · exact ih (attempt + 1) _ (hsync2 _) hstop (hcnt2 _ h1) (hlen2 _)
            · rw [if_neg hfb]
              have hne : ¬ (st.activeModel ≠ st.activeModel) := fun h => h rfl
              rw [if_neg hne]
              split_ifs with h1 h2 h3
              · exact ⟨hsync2 _, Or.inr (Or.inl ⟨rfl, by
                  rw [← hsync2 _]
                  simp only [Bool.and_eq_true, decide_eq_true_eq] at h1
                  exact h1.2⟩)⟩
              · exact ⟨hsync2 _, Or.inl ⟨hstop, by
                  rw [← hsync2 _, stallUpdate_not_failure _ _ _
                    (mkAttemptObs_not_failure _ _ h2)]
                  decide⟩⟩
              · exact ih (attempt + 1) _ (hsync2 _) hstop (hcnt2 _ h1) (hlen2 _)
              · exact ih (attempt + 1) _ (hsync2 _) hstop (hcnt2 _ h1) (hlen2 _)

/-- C2: an attempt counts as a failure iff quality ok is false or
settings verification did not pass; a stalled attempt is exactly a
failing attempt after the first whose signature equals the prior
failing attempt's and whose score is at most 0.75 above the prior
failing score; a failing attempt increments the stall counter when
stalled and resets it to zero otherwise, and a success resets the whole
stall slice; and a normally-returning loop stops with
`quality_stagnation` exactly when its last two executed attempts were
consecutive stalled failures. -/
theorem processGeneration_stagnation_contract :
    (∀ (raw : AttemptData) (sig : String),
      (mkAttemptObs raw sig).isFailure
        = (!raw.qualityOk || !raw.settingsVerification.passed)) ∧
    (∀ (st : StallState) (attempt : ℕ) (obs : AttemptObs),
      isStalledAttempt st attempt obs = true ↔
        (obs.isFailure = true ∧ 1 < attempt ∧
          st.lastFailureSignature = some obs.warningSignature ∧
          ∃ s, st.lastFailureScore = some s ∧ obs.qualityScore ≤ s + 3/4)) ∧
    (∀ (st : StallState) (attempt : ℕ) (obs : AttemptObs), obs.isFailure = true →
      (stallUpdate st attempt obs).failureStallCount
        = if isStalledAttempt st attempt obs then st.failureStallCount + 1 else 0) ∧
    (∀ (st : StallState) (attempt : ℕ) (obs : AttemptObs), obs.isFailure = false →
      stallUpdate st attempt obs = initialStallState) ∧
    (∀ (E : ProcessEnv) (O : ProcessOracle) (gen : StoredGeneration) (st : LoopState),
      runAttemptLoop E O gen = .ok st →
      (st.stopReason = some StopReason.quality_stagnation ↔
        ∃ h obs1 obs2, st.history = h ++ [obs1, obs2] ∧
          stalledAtLast h obs1 = true ∧ stalledAtLast (h ++ [obs1]) obs2 = true)) := by
  refine ⟨?_, ?_, ?_, ?_, ?_⟩
  · intro raw sig
    unfold mkAttemptObs
    dsimp only
    rw [Bool.not_and]
  · intro st attempt obs
    unfold isStalledAttempt
    cases hls : st.lastFailureScore with
    | none =>
      simp
    | some s0 =>
      simp only [Bool.and_eq_true, decide_eq_true_eq]
      constructor
      · rintro ⟨⟨⟨hf, ha⟩, hsig⟩, hsc⟩
        exact ⟨hf, ha, hsig, s0, rfl, hsc⟩
      · rintro ⟨hf, ha, hsig, s, hs, hsc⟩
        injection hs with hs
        subst hs
        exact ⟨⟨⟨hf, ha⟩, hsig⟩, hsc⟩
  · intro st attempt obs hf
    unfold stallUpdate
    rw [if_pos hf]
  · intro st attempt obs hf
    exact stallUpdate_not_failure st attempt obs hf
  · intro E O gen st hok
    have hres := processLoopGo_stagRes E O gen
      (estimateOutputTokens gen.spriteSize gen.columns gen.rows)
      (max 1 E.qualityMaxAttempts) 1 (initialLoopState E gen) rfl rfl
      (by show (runStallState []).failureStallCount < 2; decide) rfl
    unfold runAttemptLoop at hok
    rw [hok] at hres
    obtain ⟨-, hdisj⟩ := hres
    rw [← count_ge_two_iff]
    rcases hdisj with ⟨h1, h2⟩ | ⟨h1, h2⟩ | ⟨h1, h2⟩
    · constructor
      · intro hcon
        rw [h1] at hcon
        exact Option.noConfusion hcon
      · intro hcon
        omega
    · exact ⟨fun _ => h2, fun _ => h1⟩
    · constructor
      · intro hcon
        rw [h1] at hcon
        injection hcon with hcon
        exact StopReason.noConfusion hcon
      · intro hcon
        omega

/-- C2 witness: a concrete failing observation resets the counter when
not stalled (attempt 1), and a concrete successful one-attempt run does
not stop with `quality_stagnation`. -/
theorem processGeneration_stagnation_contract_witness :
    fixtureFailObs.isFailure = true ∧
    (stallUpdate initialStallState 1 fixtureFailObs).failureStallCount = 0 ∧
    runAttemptLoop fixtureProcessEnv successOracle fixtureGeneration
        = .ok fixtureSuccessState ∧
    fixtureSuccessState.stopReason ≠ some StopReason.quality_stagnation := by
  have hf : fixtureFailObs.isFailure = true := rfl
  have hok : runAttemptLoop fixtureProcessEnv successOracle fixtureGeneration
      = .ok fixtureSuccessState := by with_unfolding_all rfl
  have hcount := processGeneration_stagnation_contract.2.2.1 initialStallState 1
    fixtureFailObs hf
  have hiff := processGeneration_stagnation_contract.2.2.2.2 fixtureProcessEnv
    successOracle fixtureGeneration fixtureSuccessState hok
  refine ⟨hf, ?_, hok, ?_⟩
  · rw [hcount, if_neg (by decide)]
  · intro hcon
    obtain ⟨h, obs1, obs2, hdec, -, -⟩ := hiff.mp hcon
    have hlen : fixtureSuccessState.history.length = 1 := by
      with_unfolding_all rfl
    rw [hdec] at hlen
    simp only [List.length_append, List.length_cons, List.length_nil] at hlen
    omega

/-! ### C8: stabiliser idempotence -/

theorem jsRound_le (x : ℚ) : (jsRound x : ℚ) ≤ x + 1/2 := by
  unfold jsRound
  rw [round_eq]
  exact Int.floor_le (x + 1/2)

theorem lt_jsRound_add_half (x : ℚ) : x - 1/2 < (jsRound x : ℚ) := by
  unfold jsRound
  rw [round_eq]
  have h := Int.lt_floor_add_one (x + 1/2)
  linarith

theorem jsRound_int_sub_half (n : ℤ) : jsRound ((n : ℚ) - 1/2) = n := by
  unfold jsRound
  rw [round_eq, show (n : ℚ) - 1/2 + 1/2 = (n : ℚ) from by ring]
  exact Int.floor_intCast n

theorem stabEffInset_le_maxDest (s w i : ℕ) :
    stabEffInset s w i ≤ stabMaxDest s w i := by
  unfold stabMaxDest stabEffInset
  omega

theorem destClamp_core (eff md r dm : ℤ) (lo hi C : ℚ) (w : ℕ)
    (heffmd : eff ≤ md) (hlohi : lo ≤ hi) (hloC : lo ≤ C) (hChi : C ≤ hi)
    (hr_le : (r : ℚ) ≤ C - (w : ℚ)/2 + 1/2)
    (hr_gt : C - (w : ℚ)/2 - 1/2 < (r : ℚ))
    (hdm : dm = min md (max eff r)) :
    min md (max eff (jsRound (clampQ ((dm : ℚ) + ((w : ℚ) - 1)/2) lo hi
        - (w : ℚ)/2)))
      = dm := by
  by_cases hr1 : r < eff
  · have hdme : dm = eff := by omega
    rw [hdme]
    by_cases hD1 : (eff : ℚ) + ((w : ℚ) - 1)/2 < lo
    · rw [show clampQ ((eff : ℚ) + ((w : ℚ) - 1)/2) lo hi = lo from by
        unfold clampQ
        rw [max_eq_left hD1.le, min_eq_right hlohi]]
      have hq : (jsRound (lo - (w : ℚ)/2) : ℚ) < (r : ℚ) + 1 := by
        have h1 := jsRound_le (lo - (w : ℚ)/2)
        linarith
      have h2 : jsRound (lo - (w : ℚ)/2) ≤ r := by
        have : jsRound (lo - (w : ℚ)/2) < r + 1 := by exact_mod_cast hq
        omega
      omega
    · by_cases hD2 : hi < (eff : ℚ) + ((w : ℚ) - 1)/2
      · rw [show clampQ ((eff : ℚ) + ((w : ℚ) - 1)/2) lo hi = hi from by
          unfold clampQ
          rw [max_eq_right (not_lt.mp hD1), min_eq_left hD2.le]]
        have hq : (jsRound (hi - (w : ℚ)/2) : ℚ) ≤ (eff : ℚ) := by
          have h1 := jsRound_le (hi - (w : ℚ)/2)
          linarith
        have h2 : jsRound (hi - (w : ℚ)/2) ≤ eff := by exact_mod_cast hq
        omega
      · rw [show clampQ ((eff : ℚ) + ((w : ℚ) - 1)/2) lo hi
            = (eff : ℚ) + ((w : ℚ) - 1)/2 from by
          unfold clampQ
          rw [max_eq_right (not_lt.mp hD1), min_eq_right (not_lt.mp hD2)]]
        rw [show (eff : ℚ) + ((w : ℚ) - 1)/2 - (w : ℚ)/2 = (eff : ℚ) - 1/2 from by
          ring]
        rw [jsRound_int_sub_half]
        omega
  · by_cases hr2 : md < r
    · have hdme : dm = md := by omega
      rw [hdme]
      have hrmd : (md : ℚ) + 1 ≤ (r : ℚ) := by exact_mod_cast hr2
      by_cases hD2 : hi < (md : ℚ) + ((w : ℚ) - 1)/2
      · exact absurd hD2 (by push_neg; linarith)
      · by_cases hD1 : (md : ℚ) + ((w : ℚ) - 1)/2 < lo
        · rw [show clampQ ((md : ℚ) + ((w : ℚ) - 1)/2) lo hi = lo from by
            unfold clampQ
            rw [max_eq_left hD1.le, min_eq_right hlohi]]
          have hq : (md : ℚ) - 1 < (jsRound (lo - (w : ℚ)/2) : ℚ) := by
            have h1 := lt_jsRound_add_half (lo - (w : ℚ)/2)
            linarith
          have h2 : md ≤ jsRound (lo - (w : ℚ)/2) := by
            have : md - 1 < jsRound (lo - (w : ℚ)/2) := by exact_mod_cast hq
            omega
          omega
        · rw [show clampQ ((md : ℚ) + ((w : ℚ) - 1)/2) lo hi
              = (md : ℚ) + ((w : ℚ) - 1)/2 from by
            unfold clampQ
            rw [max_eq_right (not_lt.mp hD1), min_eq_right (not_lt.mp hD2)]]
          rw [show (md : ℚ) + ((w : ℚ) - 1)/2 - (w : ℚ)/2 = (md : ℚ) - 1/2 from by
            ring]
          rw [jsRound_int_sub_half]
          omega
    · have hdme : dm = r := by omega
      rw [hdme]
      by_cases hD2 : hi < (r : ℚ) + ((w : ℚ) - 1)/2
      · exact absurd hD2 (by push_neg; linarith)
      · by_cases hD1 : (r : ℚ) + ((w : ℚ) - 1)/2 < lo
        · rw [show clampQ ((r : ℚ) + ((w : ℚ) - 1)/2) lo hi = lo from by
            unfold clampQ
            rw [max_eq_left hD1.le, min_eq_right hlohi]]
          have hq1 : (jsRound (lo - (w : ℚ)/2) : ℚ) < (r : ℚ) + 1 := by
            have h1 := jsRound_le (lo - (w : ℚ)/2)
            linarith
          have hq2 : (r : ℚ) - 1 < (jsRound (lo - (w : ℚ)/2) : ℚ) := by
            have h1 := lt_jsRound_add_half (lo - (w : ℚ)/2)
            linarith
          have h2 : jsRound (lo - (w : ℚ)/2) = r := by
            have ha : jsRound (lo - (w : ℚ)/2) < r + 1 := by exact_mod_cast hq1
            have hb : r - 1 < jsRound (lo - (w : ℚ)/2) := by exact_mod_cast hq2
            omega
          rw [h2]
          omega
        · rw [show clampQ ((r : ℚ) + ((w : ℚ) - 1)/2) lo hi
              = (r : ℚ) + ((w : ℚ) - 1)/2 from by
            unfold clampQ
            rw [max_eq_right (not_lt.mp hD1), min_eq_right (not_lt.mp hD2)]]
          rw [show (r : ℚ) + ((w : ℚ) - 1)/2 - (w : ℚ)/2 = (r : ℚ) - 1/2 from by
            ring]
          rw [jsRound_int_sub_half]
          omega

set_option maxRecDepth 100000 in
/-- C8 counterexample: a two-frame sheet whose second stabilisation
translates frame 0 again (its placed content at [3,4]^2 moves to
[2,3]^2 because the median centre changed after frame 1 moved). -/
theorem stabilizeSpriteSheet_not_idempotent :
    stabilizeSpriteSheet (stabilizeSpriteSheet stabFixtureData 16 8 8 2 1 2)
        16 8 8 2 1 2
      ≠ stabilizeSpriteSheet stabFixtureData 16 8 8 2 1 2 := by
  have h1 : stabilizeSpriteSheet stabFixtureData 16 8 8 2 1 2 = stabFixtureOnce := by
    with_unfolding_all rfl
  rw [h1]
  intro hcon
  exact absurd (congrArg (fun l => readB l 275) hcon) (by with_unfolding_all decide)

set_option maxRecDepth 100000 in
/-- C8 (amended): a second application can translate frame content
again, because the median of the frame centres seen by the second pass
need not equal the shared target centre of the first (see the
counterexample); what holds is the per-frame destination fixed point:
re-deriving a frame's destination from its own placed centre
(destMin + (scaledWidth - 1)/2) through the same safe-centre clamp and
destination clamp reproduces destMin exactly — so on a sheet whose
second-pass median is the placed centre itself (for instance a single
nonempty frame, as in the concrete run below) the second application
changes nothing. -/
theorem stabilizeSpriteSheet_second_pass_fixed_point :
    (∀ (s i w : ℕ) (ph med : ℚ),
      stabDestMin s w i
        (stabSafeCenter s i ph
          ((stabDestMin s w i (stabSafeCenter s i ph med) : ℚ)
            + ((w : ℚ) - 1)/2))
        = stabDestMin s w i (stabSafeCenter s i ph med)) ∧
    stabilizeSpriteSheet stabSingleFixture 16 8 8 2 1 2 = stabSingleOnce ∧
    stabilizeSpriteSheet stabSingleOnce 16 8 8 2 1 2 = stabSingleOnce := by
  refine ⟨?_, ?_, ?_⟩
  · intro s i w ph med
    unfold stabDestMin stabSafeCenter
    exact destClamp_core (stabEffInset s w i) (stabMaxDest s w i) _ _ _ _ _ w
      (stabEffInset_le_maxDest s w i) (le_max_left _ _)
      (clampQ_mem med (le_max_left _ _)).1 (clampQ_mem med (le_max_left _ _)).2
      (jsRound_le _) (lt_jsRound_add_half _) rfl
  · with_unfolding_all rfl
  · with_unfolding_all rfl

end SpriteMatic
